import Mathlib

/-!
Verification of the settings parser in `ms2rescore/gui.py`.

The one piece of reimplementable logic in the repository is the function
`parse_settings` (gui.py, lines 220-261), which reshapes a flat mapping of
form-field values into a nested configuration with sections `general`,
`maxquant_to_rescore` and `ms2pip`.  This file gives a shallow embedding of
that function and settles the frozen claims about it.

Python values reaching the parser are modelled by `PyValue`; Python dicts by
insertion-ordered association lists with unique keys (`dlookup`, `dpop`,
`dinsert`, `derase` mirror `d[k]`, `d.pop(k)`, `d[k] = v`, and `del d[k]`).
Python floats are modelled as exact rationals: `parse_settings` only passes
the fragment-error value through and never computes with it.
-/

/-- A Python value, as far as the GUI settings parser can observe one. -/
inductive PyValue where
  | none
  | bool (b : Bool)
  | int (n : Int)
  | float (q : Rat)
  | str (s : String)
  | list (xs : List PyValue)
  | dict (xs : List (String × PyValue))

/-- A Python dict with string keys: an insertion-ordered association list. -/
abbrev PyDict := List (String × PyValue)

/-- Python truthiness (`if parsed_conf_item:` at gui.py line 233). -/
def PyValue.truthy : PyValue → Bool
  | PyValue.none => false
  | PyValue.bool b => b
  | PyValue.int n => n != 0
  | PyValue.float q => q != 0
  | PyValue.str s => s != ""
  | PyValue.list xs => !xs.isEmpty
  | PyValue.dict xs => !xs.isEmpty

/-- Lookup `d[k]` on an association list: the value of the first binding of `k`. -/
def dlookup {α : Type} (k : String) : List (String × α) → Option α
  | [] => Option.none
  | (k₁, v) :: rest => if k₁ = k then some v else dlookup k rest

/-- Pop `d.pop(k)`: remove the binding of `k`, returning the value and the
remaining dict; `Option.none` models the `KeyError` on a missing key. -/
def dpop {α : Type} (k : String) : List (String × α) → Option (α × List (String × α))
  | [] => Option.none
  | (k₁, v) :: rest =>
    if k₁ = k then some (v, rest)
    else
      match dpop k rest with
      | some (v₁, rest₁) => some (v₁, (k₁, v) :: rest₁)
      | Option.none => Option.none

/-- Assignment `d[k] = v`: replace the value of an existing binding in place, or append
a new binding at the end (Python dict insertion order). -/
def dinsert {α : Type} (k : String) (v : α) : List (String × α) → List (String × α)
  | [] => [(k, v)]
  | (k₁, v₁) :: rest => if k₁ = k then (k, v) :: rest else (k₁, v₁) :: dinsert k v rest

/-- Deletion `del d[k]` ignoring a missing key: drop the first binding of `k`. -/
def derase {α : Type} (k : String) : List (String × α) → List (String × α)
  | [] => []
  | (k₁, v) :: rest => if k₁ = k then rest else (k₁, v) :: derase k rest

/-- The keys of an association list, in order. -/
def keys {α : Type} (d : List (String × α)) : List String := d.map Prod.fst

/-- Python `dict(pairs)`: fold the pairs into a dict, so a repeated key
keeps its first position but receives the value of its last occurrence. -/
def dictOfPairs {α : Type} (ps : List (String × α)) : List (String × α) :=
  ps.foldl (fun d p => dinsert p.1 p.2 d) []

/-- Split a character list at every occurrence of `sep`, keeping empty
pieces, exactly like Python `str.split(sep)` for a one-character separator:
`count(sep) + 1` pieces, and the empty string yields one empty piece. -/
def splitChar (sep : Char) : List Char → List (List Char)
  | [] => [[]]
  | c :: cs =>
    if c = sep then [] :: splitChar sep cs
    else
      match splitChar sep cs with
      | p :: ps => (c :: p) :: ps
      | [] => [[c]]

/-- Python `s.split(sep)` for a one-character separator. -/
def pySplit (sep : Char) (s : String) : List String :=
  (splitChar sep s.data).map String.mk

/-- gui.py line 235, `tuple(x.split(" "))` as consumed by `dict(...)`: a line
is split on every single space; only a line with exactly two space-separated
tokens yields a pair, anything else raises `ValueError` inside `dict(...)`,
modelled by `Option.none`. -/
def splitLine (x : String) : Option (String × String) :=
  match pySplit ' ' x with
  | [a, b] => some (a, b)
  | _ => Option.none

/-- The list comprehension at gui.py line 235: turn every line into a pair,
failing if any line is malformed. -/
def mapPairs : List String → Option (List (String × String))
  | [] => some []
  | x :: xs =>
    match splitLine x, mapPairs xs with
    | some p, some ps => some (p :: ps)
    | _, _ => Option.none

/-- gui.py lines 234-235: split the text block on newlines, split each line
on spaces into a pair, and build a dict from the pairs. -/
def parseModText (s : String) : Option (List (String × String)) :=
  (mapPairs (pySplit '\n' s)).map dictOfPairs

/-- gui.py lines 233-238, the body of the `try` for one modification field:
a falsy value (in particular the empty string) yields the empty dict; a
non-empty string is parsed by `parseModText`; a truthy non-string raises
(`.split` is not defined on it), modelled by `Option.none`.  `Option.none`
is what the `except Exception` at line 239 converts into the GUI error. -/
def parseModItem (v : PyValue) : Option (List (String × String)) :=
  if v.truthy then
    match v with
    | PyValue.str s => parseModText s
    | _ => Option.none
  else some []

/-- The message of the `MS2RescoreGUIError` raised at gui.py lines 240-243.
It names the MaxQuant modification configuration but not which of the two
fields was malformed (the same message is raised for either field). -/
def maxquantErrorMsg : String :=
  "Invalid MaxQuant modification configuration. Make sure that the modification configuration fields are formatted correctly."

/-- The message of the `MS2RescoreGUIError` raised at gui.py lines 256-259. -/
def ms2pipErrorMsg : String :=
  "Invalid MS²PIP modification configuration. Make sure that the modification configuration field is formatted correctly."

/-- gui.py line 252, `ast.literal_eval(...)` applied to the popped value:
the literal evaluator accepts a string and raises on any other argument
(`Option.none`); which literals a string denotes is the parameter
`litEval`, since `ast.literal_eval` is external to the repository. -/
def litEvalValue (litEval : String → Option PyValue) : PyValue → Option PyValue
  | PyValue.str s => litEval s
  | _ => Option.none

/-- The exceptions `parse_settings` can raise: a raw `KeyError` from `pop` on
a missing key outside any `try`, or the dedicated `MS2RescoreGUIError`. -/
inductive PyErr where
  | keyError (key : String)
  | guiError (msg : String)

/-- The parsed `ms2pip` section (gui.py lines 246-254). -/
structure Ms2pipSection where
  model : PyValue
  frag_error : PyValue
  modifications : PyValue

/-- The nested configuration returned by `parse_settings`. -/
structure ParsedConfig where
  general : PyDict
  maxquant_to_rescore : List (String × List (String × String))
  ms2pip : Ms2pipSection

/-- Shallow embedding of `parse_settings` (gui.py lines 220-261).

The statement `"general" : config` at line 224 stores the caller's dict
itself in the result — there is no copy — so every `pop` on
`parsed_config["general"]` removes a key from the caller's dict.  The
embedding therefore threads that single dict explicitly and returns, next to
the result (or the exception), the final state of the caller's dict.

The external `ast.literal_eval` called at line 252 is not part of this
repository; the embedding takes it as the parameter `litEval`
(`Option.none` models any exception it raises).  Calling it on a non-string
value raises as well, and the `pop` at line 253 sits inside the `try`, so a
missing `ms2pip_modifications` key also becomes the GUI error. -/
def parse_settings (litEval : String → Option PyValue) (config : PyDict) :
    Except PyErr ParsedConfig × PyDict :=
  match dpop "modification_mapping" config with
  | Option.none => (Except.error (PyErr.keyError "modification_mapping"), config)
  | some (v₁, g₁) =>
    match parseModItem v₁ with
    | Option.none => (Except.error (PyErr.guiError maxquantErrorMsg), g₁)
    | some m₁ =>
      match dpop "fixed_modifications" g₁ with
      | Option.none => (Except.error (PyErr.keyError "fixed_modifications"), g₁)
      | some (v₂, g₂) =>
        match parseModItem v₂ with
        | Option.none => (Except.error (PyErr.guiError maxquantErrorMsg), g₂)
        | some m₂ =>
          match dpop "ms2pip_model" g₂ with
          | Option.none => (Except.error (PyErr.keyError "ms2pip_model"), g₂)
          | some (vm, g₃) =>
            match dpop "ms2pip_frag_error" g₃ with
            | Option.none => (Except.error (PyErr.keyError "ms2pip_frag_error"), g₃)
            | some (vf, g₄) =>
              match dpop "ms2pip_modifications" g₄ with
              | Option.none => (Except.error (PyErr.guiError ms2pipErrorMsg), g₄)
              | some (vmod, g₅) =>
                match litEvalValue litEval vmod with
                | Option.none => (Except.error (PyErr.guiError ms2pipErrorMsg), g₅)
                | some mods =>
                  (Except.ok
                    { general := g₅
                      maxquant_to_rescore :=
                        dinsert "fixed_modifications" m₂
                          (dinsert "modification_mapping" m₁ [])
                      ms2pip := { model := vm, frag_error := vf, modifications := mods } },
                   g₅)

/-! ### A concrete model of the external literal evaluator

`ast.literal_eval` belongs to the Python standard library, not to this
repository.  `parse_settings` above is therefore parameterised over it, and
the claims about the guarded literal-parsing step are proved for every
possible evaluator.  For the concrete end-to-end examples a small executable
model is needed; the following recursive-descent parser covers the fragment
of Python literal syntax those examples use (integers, quoted strings,
lists, and string-keyed dicts, with blanks between tokens), and rejects
everything else. -/

/-- The single-quote character. -/
def squoteChar : Char := Char.ofNat 39

/-- The double-quote character. -/
def dquoteChar : Char := Char.ofNat 34

/-- The opening-brace character. -/
def lbraceChar : Char := Char.ofNat 123

/-- The closing-brace character. -/
def rbraceChar : Char := Char.ofNat 125

/-- Skip blanks and newlines. -/
def skipWs : List Char → List Char
  | [] => []
  | c :: cs => if c = ' ' || c = '\n' then skipWs cs else c :: cs

/-- Scan a quoted string up to the closing quote `q` (no escape sequences in
the modelled fragment). -/
def takeStrAux (q : Char) : List Char → List Char → Option (String × List Char)
  | _, [] => Option.none
  | acc, c :: cs =>
    if c = q then some (String.mk acc.reverse, cs) else takeStrAux q (c :: acc) cs

/-- Split a leading run of decimal digits from the input. -/
def takeDigits : List Char → List Char × List Char
  | [] => ([], [])
  | c :: cs =>
    if c.isDigit then
      match takeDigits cs with
      | (ds, rest) => (c :: ds, rest)
    else ([], c :: cs)

/-- The number denoted by a run of decimal digits. -/
def digitsToNat (ds : List Char) : Nat :=
  ds.foldl (fun n c => 10 * n + (c.toNat - 48)) 0

mutual

/-- Parse one literal value (fuel-bounded recursive descent). -/
def parseVal : Nat → List Char → Option (PyValue × List Char)
  | 0, _ => Option.none
  | fuel + 1, cs =>
    match skipWs cs with
    | [] => Option.none
    | c :: rest =>
      if c = '[' then
        match parseListItems fuel rest with
        | some (vs, rest₁) => some (PyValue.list vs, rest₁)
        | Option.none => Option.none
      else if c = lbraceChar then
        match parseDictItems fuel rest with
        | some (kvs, rest₁) => some (PyValue.dict kvs, rest₁)
        | Option.none => Option.none
      else if c = squoteChar || c = dquoteChar then
        match takeStrAux c [] rest with
        | some (s, rest₁) => some (PyValue.str s, rest₁)
        | Option.none => Option.none
      else if c = '-' then
        match takeDigits rest with
        | ([], _) => Option.none
        | (ds, rest₁) => some (PyValue.int (-(digitsToNat ds : Int)), rest₁)
      else if c.isDigit then
        match takeDigits (c :: rest) with
        | (ds, rest₁) => some (PyValue.int (digitsToNat ds : Int), rest₁)
      else Option.none

/-- Parse the items of a list literal after the opening bracket, allowing a
trailing comma. -/
def parseListItems : Nat → List Char → Option (List PyValue × List Char)
  | 0, _ => Option.none
  | fuel + 1, cs =>
    match skipWs cs with
    | [] => Option.none
    | c :: rest =>
      if c = ']' then some ([], rest)
      else
        match parseVal fuel (c :: rest) with
        | Option.none => Option.none
        | some (v, cs₂) =>
          match skipWs cs₂ with
          | [] => Option.none
          | c₂ :: rest₂ =>
            if c₂ = ',' then
              match parseListItems fuel rest₂ with
              | some (vs, rest₃) => some (v :: vs, rest₃)
              | Option.none => Option.none
            else if c₂ = ']' then some ([v], rest₂)
            else Option.none

/-- Parse the entries of a dict literal after the opening brace, allowing a
trailing comma; keys are quoted strings in the modelled fragment. -/
def parseDictItems : Nat → List Char → Option (List (String × PyValue) × List Char)
  | 0, _ => Option.none
  | fuel + 1, cs =>
    match skipWs cs with
    | [] => Option.none
    | c :: rest =>
      if c = rbraceChar then some ([], rest)
      else if c = squoteChar || c = dquoteChar then
        match takeStrAux c [] rest with
        | Option.none => Option.none
        | some (k, cs₂) =>
          match skipWs cs₂ with
          | [] => Option.none
          | c₂ :: rest₂ =>
            if c₂ = ':' then
              match parseVal fuel rest₂ with
              | Option.none => Option.none
              | some (v, cs₃) =>
                match skipWs cs₃ with
                | [] => Option.none
                | c₃ :: rest₃ =>
                  if c₃ = ',' then
                    match parseDictItems fuel rest₃ with
                    | some (kvs, rest₄) => some ((k, v) :: kvs, rest₄)
                    | Option.none => Option.none
                  else if c₃ = rbraceChar then some ([(k, v)], rest₃)
                  else Option.none
            else Option.none
      else Option.none

end

/-- The concrete model of the external literal evaluator: parse one value and
require that only blanks remain. -/
def literal_eval (s : String) : Option PyValue :=
  match parseVal (2 * s.length + 2) s.data with
  | some (v, rest) => if skipWs rest = [] then some v else Option.none
  | Option.none => Option.none

/-! ### Derived notions used by the claims -/

/-- The text block contains a line that does not split into exactly two
space-separated tokens. -/
def hasBadLineB (s : String) : Bool :=
  (pySplit '\n' s).any fun x => (splitLine x).isNone

/-- First-occurrence deduplication of a key list, mirroring the key order a
Python dict built from a pair list ends up with. -/
def dedupKeys (ks : List String) : List String :=
  ks.foldl (fun acc k => if k ∈ acc then acc else acc ++ [k]) []

/-- The five keys `parse_settings` relocates out of the `general` section. -/
def relocatedKeys : List String :=
  ["modification_mapping", "fixed_modifications", "ms2pip_model",
   "ms2pip_frag_error", "ms2pip_modifications"]

/-- Remove the five relocated keys from a dict. -/
def removeRelocated (d : PyDict) : PyDict :=
  relocatedKeys.foldl (fun d k => derase k d) d

/-- What the guarded literal-parsing step contributes to the result: the
parsed value on success, the MS²PIP GUI error on failure. -/
def modsResult (o : Option PyValue) : Except PyErr PyValue :=
  match o with
  | some v => Except.ok v
  | Option.none => Except.error (PyErr.guiError ms2pipErrorMsg)

/-- Is `needle` a prefix of `hay`? -/
def prefixCheck : List Char → List Char → Bool
  | [], _ => true
  | _ :: _, [] => false
  | a :: as, b :: bs => a = b && prefixCheck as bs

/-- Does `needle` occur contiguously inside `hay`? -/
def infixCheck (needle : List Char) : List Char → Bool
  | [] => prefixCheck needle []
  | c :: cs => prefixCheck needle (c :: cs) || infixCheck needle cs

/-- Python `needle in hay` on strings. -/
def containsStr (hay needle : String) : Bool :=
  infixCheck needle.data hay.data

/-- Assertion that `p` holds of the parsed configuration whenever the run succeeded. -/
def okImplies (r : Except PyErr ParsedConfig × PyDict) (p : ParsedConfig → Prop) : Prop :=
  match r.1 with
  | Except.ok pc => p pc
  | Except.error _ => True

/-! ### Concrete form-value mappings used by the end-to-end claims -/

/-- The end-to-end example input of the spec: the two MaxQuant text blocks,
the MS²PIP model, fragment error and modifications literal. -/
def cfgExample : PyDict :=
  [("fixed_modifications", PyValue.str "C Carbamidomethyl"),
   ("modification_mapping", PyValue.str "ox Oxidation\nac Acetyl"),
   ("ms2pip_model", PyValue.str "HCD2021"),
   ("ms2pip_frag_error", PyValue.float (0.02 : Rat)),
   ("ms2pip_modifications", PyValue.str "[]")]

/-- A form mapping whose `modification_mapping` block has a malformed line
(a bare token) while `fixed_modifications` is well-formed. -/
def cfgBadMapping : PyDict :=
  [("fixed_modifications", PyValue.str "C Carbamidomethyl"),
   ("modification_mapping", PyValue.str "Oxidation"),
   ("ms2pip_model", PyValue.str "HCD2021"),
   ("ms2pip_frag_error", PyValue.float (0.02 : Rat)),
   ("ms2pip_modifications", PyValue.str "[]")]

/-- A form mapping whose `fixed_modifications` block has a malformed line
while `modification_mapping` is well-formed. -/
def cfgBadFixed : PyDict :=
  [("fixed_modifications", PyValue.str "Carbamidomethyl"),
   ("modification_mapping", PyValue.str "ox Oxidation"),
   ("ms2pip_model", PyValue.str "HCD2021"),
   ("ms2pip_frag_error", PyValue.float (0.02 : Rat)),
   ("ms2pip_modifications", PyValue.str "[]")]

/-- A form mapping whose `modification_mapping` block is the empty string
(which splits into the single line `""`, a line with one token). -/
def cfgEmptyMapping : PyDict :=
  [("fixed_modifications", PyValue.str "C Carbamidomethyl"),
   ("modification_mapping", PyValue.str ""),
   ("ms2pip_model", PyValue.str "HCD2021"),
   ("ms2pip_frag_error", PyValue.float (0.02 : Rat)),
   ("ms2pip_modifications", PyValue.str "[]")]

/-- A form mapping whose `fixed_modifications` line has a full name that
itself contains a space. -/
def cfgMultiSpace : PyDict :=
  [("fixed_modifications", PyValue.str "C Carbamido methyl"),
   ("modification_mapping", PyValue.str "ox Oxidation"),
   ("ms2pip_model", PyValue.str "HCD2021"),
   ("ms2pip_frag_error", PyValue.float (0.02 : Rat)),
   ("ms2pip_modifications", PyValue.str "[]")]

/-- A well-formed form mapping (used to exhibit the mutation of the caller's
dict). -/
def cfgAlias : PyDict :=
  [("identification_file", PyValue.str "msms.txt"),
   ("fixed_modifications", PyValue.str "C Carbamidomethyl"),
   ("modification_mapping", PyValue.str "ox Oxidation"),
   ("ms2pip_model", PyValue.str "HCD2021"),
   ("ms2pip_frag_error", PyValue.float (0.02 : Rat)),
   ("ms2pip_modifications", PyValue.str "[]")]

/-- A well-formed form mapping with pass-through keys before, between and
after the relocated ones. -/
def cfgGeneralKeys : PyDict :=
  [("identification_file", PyValue.str "msms.txt"),
   ("modification_mapping", PyValue.str "ox Oxidation"),
   ("log_level", PyValue.str "info"),
   ("fixed_modifications", PyValue.str "C Carbamidomethyl"),
   ("ms2pip_model", PyValue.str "HCD2021"),
   ("ms2pip_frag_error", PyValue.float (0.02 : Rat)),
   ("ms2pip_modifications", PyValue.str "[]"),
   ("mgf_path", PyValue.none)]

/-- A form mapping in which both modification text blocks are empty. -/
def cfgEmptyBoth : PyDict :=
  [("fixed_modifications", PyValue.str ""),
   ("modification_mapping", PyValue.str ""),
   ("ms2pip_model", PyValue.str "HCD2021"),
   ("ms2pip_frag_error", PyValue.float (0.02 : Rat)),
   ("ms2pip_modifications", PyValue.str "[]")]

/-- A form mapping whose `modification_mapping` block repeats the short
label `cm` with two different full names (as the GUI default text does). -/
def cfgDupLabels : PyDict :=
  [("fixed_modifications", PyValue.str "C Carbamidomethyl"),
   ("modification_mapping",
    PyValue.str "cm Carbamidomethyl\nox Oxidation\ncm Carbamidomethyl2"),
   ("ms2pip_model", PyValue.str "HCD2021"),
   ("ms2pip_frag_error", PyValue.float (0.02 : Rat)),
   ("ms2pip_modifications", PyValue.str "[]")]

/-- A form mapping whose MS²PIP modifications block is a literal sequence of
mapping records. -/
def cfgRecords : PyDict :=
  [("fixed_modifications", PyValue.str "C Carbamidomethyl"),
   ("modification_mapping", PyValue.str "ox Oxidation"),
   ("ms2pip_model", PyValue.str "HCD2021"),
   ("ms2pip_frag_error", PyValue.float (0.02 : Rat)),
   ("ms2pip_modifications",
    PyValue.str "[\x7b\"name\": \"Oxidation\", \"amino_acid\": \"M\"\x7d, \x7b\"name\": \"Carbamidomethyl\", \"amino_acid\": \"C\"\x7d]")]

/-- A form mapping whose MS²PIP modifications block has unbalanced
brackets. -/
def cfgBadLiteral : PyDict :=
  [("fixed_modifications", PyValue.str "C Carbamidomethyl"),
   ("modification_mapping", PyValue.str "ox Oxidation"),
   ("ms2pip_model", PyValue.str "HCD2021"),
   ("ms2pip_frag_error", PyValue.float (0.02 : Rat)),
   ("ms2pip_modifications", PyValue.str "[\x7b")]

/-- A form mapping whose MS²PIP modifications block is the bare number
`3` — a valid literal that is not a sequence of records. -/
def cfgBareNumber : PyDict :=
  [("fixed_modifications", PyValue.str "C Carbamidomethyl"),
   ("modification_mapping", PyValue.str "ox Oxidation"),
   ("ms2pip_model", PyValue.str "HCD2021"),
   ("ms2pip_frag_error", PyValue.float (0.02 : Rat)),
   ("ms2pip_modifications", PyValue.str "3")]

/-- The example mapping without its `modification_mapping` key. -/
def cfgNoMapping : PyDict :=
  [("fixed_modifications", PyValue.str "C Carbamidomethyl"),
   ("ms2pip_model", PyValue.str "HCD2021"),
   ("ms2pip_frag_error", PyValue.float (0.02 : Rat)),
   ("ms2pip_modifications", PyValue.str "[]")]

/-- The example mapping without its `fixed_modifications` key. -/
def cfgNoFixed : PyDict :=
  [("modification_mapping", PyValue.str "ox Oxidation"),
   ("ms2pip_model", PyValue.str "HCD2021"),
   ("ms2pip_frag_error", PyValue.float (0.02 : Rat)),
   ("ms2pip_modifications", PyValue.str "[]")]

/-- The example mapping without its `ms2pip_model` key. -/
def cfgNoModel : PyDict :=
  [("fixed_modifications", PyValue.str "C Carbamidomethyl"),
   ("modification_mapping", PyValue.str "ox Oxidation"),
   ("ms2pip_frag_error", PyValue.float (0.02 : Rat)),
   ("ms2pip_modifications", PyValue.str "[]")]

/-- The example mapping without its `ms2pip_frag_error` key. -/
def cfgNoFragError : PyDict :=
  [("fixed_modifications", PyValue.str "C Carbamidomethyl"),
   ("modification_mapping", PyValue.str "ox Oxidation"),
   ("ms2pip_model", PyValue.str "HCD2021"),
   ("ms2pip_modifications", PyValue.str "[]")]

/-- The example mapping without its `ms2pip_modifications` key. -/
def cfgNoMs2pipMods : PyDict :=
  [("fixed_modifications", PyValue.str "C Carbamidomethyl"),
   ("modification_mapping", PyValue.str "ox Oxidation"),
   ("ms2pip_model", PyValue.str "HCD2021"),
   ("ms2pip_frag_error", PyValue.float (0.02 : Rat))]

/-- The configuration `parse_settings` produces on `cfgGeneralKeys`. -/
def pcGeneralKeys : ParsedConfig :=
  { general :=
      [("identification_file", PyValue.str "msms.txt"),
       ("log_level", PyValue.str "info"),
       ("mgf_path", PyValue.none)]
    maxquant_to_rescore :=
      [("modification_mapping", [("ox", "Oxidation")]),
       ("fixed_modifications", [("C", "Carbamidomethyl")])]
    ms2pip := { model := PyValue.str "HCD2021"
                frag_error := PyValue.float (0.02 : Rat)
                modifications := PyValue.list [] } }

/-- The configuration `parse_settings` produces on `cfgDupLabels`. -/
def pcDupLabels : ParsedConfig :=
  { general := []
    maxquant_to_rescore :=
      [("modification_mapping",
        [("cm", "Carbamidomethyl2"), ("ox", "Oxidation")]),
       ("fixed_modifications", [("C", "Carbamidomethyl")])]
    ms2pip := { model := PyValue.str "HCD2021"
                frag_error := PyValue.float (0.02 : Rat)
                modifications := PyValue.list [] } }

/-- The configuration `parse_settings` produces on `cfgBareNumber`. -/
def pcBareNumber : ParsedConfig :=
  { general := []
    maxquant_to_rescore :=
      [("modification_mapping", [("ox", "Oxidation")]),
       ("fixed_modifications", [("C", "Carbamidomethyl")])]
    ms2pip := { model := PyValue.str "HCD2021"
                frag_error := PyValue.float (0.02 : Rat)
                modifications := PyValue.int 3 } }

/-! ### Outcome lemmas: one equation per exit point of `parse_settings` -/

theorem ps_mm_missing (litEval : String → Option PyValue) (cfg : PyDict)
    (h₁ : dpop "modification_mapping" cfg = Option.none) :
    parse_settings litEval cfg =
      (Except.error (PyErr.keyError "modification_mapping"), cfg) := by
  simp only [parse_settings, h₁]

theorem ps_mm_bad (litEval : String → Option PyValue) (cfg g₁ : PyDict) (v₁ : PyValue)
    (h₁ : dpop "modification_mapping" cfg = some (v₁, g₁))
    (hm₁ : parseModItem v₁ = Option.none) :
    parse_settings litEval cfg =
      (Except.error (PyErr.guiError maxquantErrorMsg), g₁) := by
  simp only [parse_settings, h₁, hm₁]

theorem ps_fixed_missing (litEval : String → Option PyValue) (cfg g₁ : PyDict)
    (v₁ : PyValue) (m₁ : List (String × String))
    (h₁ : dpop "modification_mapping" cfg = some (v₁, g₁))
    (hm₁ : parseModItem v₁ = some m₁)
    (h₂ : dpop "fixed_modifications" g₁ = Option.none) :
    parse_settings litEval cfg =
      (Except.error (PyErr.keyError "fixed_modifications"), g₁) := by
  simp only [parse_settings, h₁, hm₁, h₂]

theorem ps_fixed_bad (litEval : String → Option PyValue) (cfg g₁ g₂ : PyDict)
    (v₁ v₂ : PyValue) (m₁ : List (String × String))
    (h₁ : dpop "modification_mapping" cfg = some (v₁, g₁))
    (hm₁ : parseModItem v₁ = some m₁)
    (h₂ : dpop "fixed_modifications" g₁ = some (v₂, g₂))
    (hm₂ : parseModItem v₂ = Option.none) :
    parse_settings litEval cfg =
      (Except.error (PyErr.guiError maxquantErrorMsg), g₂) := by
  simp only [parse_settings, h₁, hm₁, h₂, hm₂]

theorem ps_model_missing (litEval : String → Option PyValue) (cfg g₁ g₂ : PyDict)
    (v₁ v₂ : PyValue) (m₁ m₂ : List (String × String))
    (h₁ : dpop "modification_mapping" cfg = some (v₁, g₁))
    (hm₁ : parseModItem v₁ = some m₁)
    (h₂ : dpop "fixed_modifications" g₁ = some (v₂, g₂))
    (hm₂ : parseModItem v₂ = some m₂)
    (h₃ : dpop "ms2pip_model" g₂ = Option.none) :
    parse_settings litEval cfg =
      (Except.error (PyErr.keyError "ms2pip_model"), g₂) := by
  simp only [parse_settings, h₁, hm₁, h₂, hm₂, h₃]

theorem ps_frag_missing (litEval : String → Option PyValue) (cfg g₁ g₂ g₃ : PyDict)
    (v₁ v₂ vm : PyValue) (m₁ m₂ : List (String × String))
    (h₁ : dpop "modification_mapping" cfg = some (v₁, g₁))
    (hm₁ : parseModItem v₁ = some m₁)
    (h₂ : dpop "fixed_modifications" g₁ = some (v₂, g₂))
    (hm₂ : parseModItem v₂ = some m₂)
    (h₃ : dpop "ms2pip_model" g₂ = some (vm, g₃))
    (h₄ : dpop "ms2pip_frag_error" g₃ = Option.none) :
    parse_settings litEval cfg =
      (Except.error (PyErr.keyError "ms2pip_frag_error"), g₃) := by
  simp only [parse_settings, h₁, hm₁, h₂, hm₂, h₃, h₄]

theorem ps_mods_missing (litEval : String → Option PyValue) (cfg g₁ g₂ g₃ g₄ : PyDict)
    (v₁ v₂ vm vf : PyValue) (m₁ m₂ : List (String × String))
    (h₁ : dpop "modification_mapping" cfg = some (v₁, g₁))
    (hm₁ : parseModItem v₁ = some m₁)
    (h₂ : dpop "fixed_modifications" g₁ = some (v₂, g₂))
    (hm₂ : parseModItem v₂ = some m₂)
    (h₃ : dpop "ms2pip_model" g₂ = some (vm, g₃))
    (h₄ : dpop "ms2pip_frag_error" g₃ = some (vf, g₄))
    (h₅ : dpop "ms2pip_modifications" g₄ = Option.none) :
    parse_settings litEval cfg =
      (Except.error (PyErr.guiError ms2pipErrorMsg), g₄) := by
  simp only [parse_settings, h₁, hm₁, h₂, hm₂, h₃, h₄, h₅]

theorem ps_mods_badlit (litEval : String → Option PyValue) (cfg g₁ g₂ g₃ g₄ g₅ : PyDict)
    (v₁ v₂ vm vf vmod : PyValue) (m₁ m₂ : List (String × String))
    (h₁ : dpop "modification_mapping" cfg = some (v₁, g₁))
    (hm₁ : parseModItem v₁ = some m₁)
    (h₂ : dpop "fixed_modifications" g₁ = some (v₂, g₂))
    (hm₂ : parseModItem v₂ = some m₂)
    (h₃ : dpop "ms2pip_model" g₂ = some (vm, g₃))
    (h₄ : dpop "ms2pip_frag_error" g₃ = some (vf, g₄))
    (h₅ : dpop "ms2pip_modifications" g₄ = some (vmod, g₅))
    (h₆ : litEvalValue litEval vmod = Option.none) :
    parse_settings litEval cfg =
      (Except.error (PyErr.guiError ms2pipErrorMsg), g₅) := by
  simp only [parse_settings, h₁, hm₁, h₂, hm₂, h₃, h₄, h₅, h₆]

theorem ps_ok (litEval : String → Option PyValue) (cfg g₁ g₂ g₃ g₄ g₅ : PyDict)
    (v₁ v₂ vm vf vmod mods : PyValue) (m₁ m₂ : List (String × String))
    (h₁ : dpop "modification_mapping" cfg = some (v₁, g₁))
    (hm₁ : parseModItem v₁ = some m₁)
    (h₂ : dpop "fixed_modifications" g₁ = some (v₂, g₂))
    (hm₂ : parseModItem v₂ = some m₂)
    (h₃ : dpop "ms2pip_model" g₂ = some (vm, g₃))
    (h₄ : dpop "ms2pip_frag_error" g₃ = some (vf, g₄))
    (h₅ : dpop "ms2pip_modifications" g₄ = some (vmod, g₅))
    (h₆ : litEvalValue litEval vmod = some mods) :
    parse_settings litEval cfg =
      (Except.ok
        { general := g₅
          maxquant_to_rescore :=
            dinsert "fixed_modifications" m₂ (dinsert "modification_mapping" m₁ [])
          ms2pip := { model := vm, frag_error := vf, modifications := mods } },
       g₅) := by
  simp only [parse_settings, h₁, hm₁, h₂, hm₂, h₃, h₄, h₅, h₆]

/-- Inversion: a successful run of `parse_settings` determines the whole
sequence of pops and parses, and the returned value. -/
theorem parse_settings_ok_inv (litEval : String → Option PyValue) (cfg g' : PyDict)
    (pc : ParsedConfig)
    (hok : parse_settings litEval cfg = (Except.ok pc, g')) :
    ∃ (v₁ v₂ vm vf : PyValue) (g₁ g₂ g₃ g₄ : PyDict)
      (m₁ m₂ : List (String × String)) (s : String) (mods : PyValue),
      dpop "modification_mapping" cfg = some (v₁, g₁) ∧
      parseModItem v₁ = some m₁ ∧
      dpop "fixed_modifications" g₁ = some (v₂, g₂) ∧
      parseModItem v₂ = some m₂ ∧
      dpop "ms2pip_model" g₂ = some (vm, g₃) ∧
      dpop "ms2pip_frag_error" g₃ = some (vf, g₄) ∧
      dpop "ms2pip_modifications" g₄ = some (PyValue.str s, g') ∧
      litEval s = some mods ∧
      pc = { general := g'
             maxquant_to_rescore :=
               dinsert "fixed_modifications" m₂ (dinsert "modification_mapping" m₁ [])
             ms2pip := { model := vm, frag_error := vf, modifications := mods } } := by
  cases h₁ : dpop "modification_mapping" cfg with
  | none => rw [ps_mm_missing litEval cfg h₁] at hok; simp at hok
  | some p₁ =>
  obtain ⟨v₁, g₁⟩ := p₁
  cases hm₁ : parseModItem v₁ with
  | none => rw [ps_mm_bad litEval cfg g₁ v₁ h₁ hm₁] at hok; simp at hok
  | some m₁ =>
  cases h₂ : dpop "fixed_modifications" g₁ with
  | none => rw [ps_fixed_missing litEval cfg g₁ v₁ m₁ h₁ hm₁ h₂] at hok; simp at hok
  | some p₂ =>
  obtain ⟨v₂, g₂⟩ := p₂
  cases hm₂ : parseModItem v₂ with
  | none => rw [ps_fixed_bad litEval cfg g₁ g₂ v₁ v₂ m₁ h₁ hm₁ h₂ hm₂] at hok; simp at hok
  | some m₂ =>
  cases h₃ : dpop "ms2pip_model" g₂ with
  | none =>
    rw [ps_model_missing litEval cfg g₁ g₂ v₁ v₂ m₁ m₂ h₁ hm₁ h₂ hm₂ h₃] at hok
    simp at hok
  | some p₃ =>
  obtain ⟨vm, g₃⟩ := p₃
  cases h₄ : dpop "ms2pip_frag_error" g₃ with
  | none =>
    rw [ps_frag_missing litEval cfg g₁ g₂ g₃ v₁ v₂ vm m₁ m₂ h₁ hm₁ h₂ hm₂ h₃ h₄] at hok
    simp at hok
  | some p₄ =>
  obtain ⟨vf, g₄⟩ := p₄
  cases h₅ : dpop "ms2pip_modifications" g₄ with
  | none =>
    rw [ps_mods_missing litEval cfg g₁ g₂ g₃ g₄ v₁ v₂ vm vf m₁ m₂
      h₁ hm₁ h₂ hm₂ h₃ h₄ h₅] at hok
    simp at hok
  | some p₅ =>
  obtain ⟨vmod, g₅⟩ := p₅
  cases h₆ : litEvalValue litEval vmod with
  | none =>
    rw [ps_mods_badlit litEval cfg g₁ g₂ g₃ g₄ g₅ v₁ v₂ vm vf vmod m₁ m₂
      h₁ hm₁ h₂ hm₂ h₃ h₄ h₅ h₆] at hok
    simp at hok
  | some mods =>
  obtain ⟨s, rfl⟩ : ∃ s, vmod = PyValue.str s := by
    cases vmod <;> simp_all [litEvalValue]
  rw [ps_ok litEval cfg g₁ g₂ g₃ g₄ g₅ v₁ v₂ vm vf (PyValue.str s) mods m₁ m₂
    h₁ hm₁ h₂ hm₂ h₃ h₄ h₅ h₆] at hok
  simp only [Prod.mk.injEq, Except.ok.injEq] at hok
  obtain ⟨hpc, hg⟩ := hok
  subst hg
  exact ⟨v₁, v₂, vm, vf, g₁, g₂, g₃, g₄, m₁, m₂, s, mods,
    rfl, hm₁, h₂, hm₂, h₃, h₄, h₅, h₆, hpc.symm⟩

/-- Claim C1: on the input with `fixed_modifications = "C Carbamidomethyl"`,
`modification_mapping = "ox Oxidation\nac Acetyl"`, `ms2pip_model =
"HCD2021"`, `ms2pip_frag_error = 0.02` and `ms2pip_modifications = "[]"`,
`parse_settings` returns a configuration whose `maxquant_to_rescore` section
maps `fixed_modifications` to `{"C": "Carbamidomethyl"}` and
`modification_mapping` to `{"ox": "Oxidation", "ac": "Acetyl"}`, and whose
`ms2pip` section is `{"model": "HCD2021", "frag_error": 0.02,
"modifications": []}`.  (The loop at gui.py line 230 inserts
`modification_mapping` first, so that is the insertion order of the section;
Python dict equality ignores insertion order.) -/
theorem C1_end_to_end_example :
    (parse_settings literal_eval cfgExample).1 = Except.ok
      { general := []
        maxquant_to_rescore :=
          [("modification_mapping", [("ox", "Oxidation"), ("ac", "Acetyl")]),
           ("fixed_modifications", [("C", "Carbamidomethyl")])]
        ms2pip := { model := PyValue.str "HCD2021"
                    frag_error := PyValue.float (0.02 : Rat)
                    modifications := PyValue.list [] } } := by
  rfl

/-! ### Association-list lemmas -/

theorem dpop_dlookup {α : Type} (k : String) (d d₁ : List (String × α)) (v : α)
    (h : dpop k d = some (v, d₁)) : dlookup k d = some v := by
  induction d generalizing d₁ with
  | nil => simp [dpop] at h
  | cons p rest ih =>
    obtain ⟨k₂, v₂⟩ := p
    by_cases hk : k₂ = k
    · rw [dpop, if_pos hk] at h
      simp only [Option.some.injEq, Prod.mk.injEq] at h
      rw [dlookup, if_pos hk, h.1]
    · rw [dpop, if_neg hk] at h
      rw [dlookup, if_neg hk]
      cases hrec : dpop k rest with
      | none => rw [hrec] at h; cases h
      | some p₁ =>
        obtain ⟨v₁, rest₁⟩ := p₁
        rw [hrec] at h
        simp only [Option.some.injEq, Prod.mk.injEq] at h
        exact ih rest₁ (h.1 ▸ hrec)

theorem dpop_dlookup_ne {α : Type} (k k₁ : String) (d d₁ : List (String × α)) (v : α)
    (h : dpop k d = some (v, d₁)) (hne : k₁ ≠ k) :
    dlookup k₁ d₁ = dlookup k₁ d := by
  induction d generalizing d₁ with
  | nil => simp [dpop] at h
  | cons p rest ih =>
    obtain ⟨k₂, v₂⟩ := p
    by_cases hk : k₂ = k
    · rw [dpop, if_pos hk] at h
      simp only [Option.some.injEq, Prod.mk.injEq] at h
      rw [← h.2, dlookup, if_neg (fun hq : k₂ = k₁ => hne (hq.symm.trans hk))]
    · rw [dpop, if_neg hk] at h
      cases hrec : dpop k rest with
      | none => rw [hrec] at h; cases h
      | some p₁ =>
        obtain ⟨v₁, rest₁⟩ := p₁
        rw [hrec] at h
        simp only [Option.some.injEq, Prod.mk.injEq] at h
        rw [← h.2, dlookup, dlookup]
        by_cases hk₁ : k₂ = k₁
        · rw [if_pos hk₁, if_pos hk₁]
        · rw [if_neg hk₁, if_neg hk₁]
          exact ih rest₁ (h.1 ▸ hrec)

theorem dlookup_mem_keys {α : Type} (k : String) (d : List (String × α)) (w : α)
    (h : dlookup k d = some w) : k ∈ keys d := by
  induction d with
  | nil => simp [dlookup] at h
  | cons p rest ih =>
    obtain ⟨k₂, v₂⟩ := p
    by_cases hk : k₂ = k
    · simp [keys, hk]
    · rw [dlookup, if_neg hk] at h
      simp only [keys, List.map_cons, List.mem_cons]
      exact Or.inr (ih h)

theorem dpop_keys_sub {α : Type} (k : String) (d d₁ : List (String × α)) (v : α)
    (h : dpop k d = some (v, d₁)) : ∀ x, x ∈ keys d₁ → x ∈ keys d := by
  induction d generalizing d₁ with
  | nil => simp [dpop] at h
  | cons p rest ih =>
    obtain ⟨k₂, v₂⟩ := p
    by_cases hk : k₂ = k
    · rw [dpop, if_pos hk] at h
      simp only [Option.some.injEq, Prod.mk.injEq] at h
      intro x hx
      rw [← h.2] at hx
      exact List.mem_cons_of_mem k₂ hx
    · rw [dpop, if_neg hk] at h
      cases hrec : dpop k rest with
      | none => rw [hrec] at h; cases h
      | some p₁ =>
        obtain ⟨v₁, rest₁⟩ := p₁
        rw [hrec] at h
        simp only [Option.some.injEq, Prod.mk.injEq] at h
        intro x hx
        rw [← h.2] at hx
        simp only [keys, List.map_cons, List.mem_cons] at hx ⊢
        cases hx with
        | inl hx => exact Or.inl hx
        | inr hx => exact Or.inr (ih rest₁ (h.1 ▸ hrec) x hx)

theorem dpop_keys_nodup {α : Type} (k : String) (d d₁ : List (String × α)) (v : α)
    (hnd : (keys d).Nodup) (h : dpop k d = some (v, d₁)) : (keys d₁).Nodup := by
  induction d generalizing d₁ with
  | nil => simp [dpop] at h
  | cons p rest ih =>
    obtain ⟨k₂, v₂⟩ := p
    simp only [keys, List.map_cons, List.nodup_cons] at hnd
    by_cases hk : k₂ = k
    · rw [dpop, if_pos hk] at h
      simp only [Option.some.injEq, Prod.mk.injEq] at h
      rw [← h.2]
      exact hnd.2
    · rw [dpop, if_neg hk] at h
      cases hrec : dpop k rest with
      | none => rw [hrec] at h; cases h
      | some p₁ =>
        obtain ⟨v₁, rest₁⟩ := p₁
        rw [hrec] at h
        simp only [Option.some.injEq, Prod.mk.injEq] at h
        rw [← h.2]
        simp only [keys, List.map_cons, List.nodup_cons]
        exact ⟨fun hmem => hnd.1 (dpop_keys_sub k rest rest₁ v (h.1 ▸ hrec) k₂ hmem),
          ih rest₁ hnd.2 (h.1 ▸ hrec)⟩

theorem dpop_dlookup_self {α : Type} (k : String) (d d₁ : List (String × α)) (v : α)
    (hnd : (keys d).Nodup) (h : dpop k d = some (v, d₁)) :
    dlookup k d₁ = Option.none := by
  induction d generalizing d₁ with
  | nil => simp [dpop] at h
  | cons p rest ih =>
    obtain ⟨k₂, v₂⟩ := p
    simp only [keys, List.map_cons, List.nodup_cons] at hnd
    by_cases hk : k₂ = k
    · rw [dpop, if_pos hk] at h
      simp only [Option.some.injEq, Prod.mk.injEq] at h
      rw [← h.2]
      subst hk
      cases hlk : dlookup k₂ rest with
      | none => rfl
      | some w => exact absurd (dlookup_mem_keys k₂ rest w hlk) hnd.1
    · rw [dpop, if_neg hk] at h
      cases hrec : dpop k rest with
      | none => rw [hrec] at h; cases h
      | some p₁ =>
        obtain ⟨v₁, rest₁⟩ := p₁
        rw [hrec] at h
        simp only [Option.some.injEq, Prod.mk.injEq] at h
        rw [← h.2, dlookup, if_neg hk]
        exact ih rest₁ hnd.2 (h.1 ▸ hrec)


theorem dpop_derase {α : Type} (k : String) (d d₁ : List (String × α)) (v : α)
    (h : dpop k d = some (v, d₁)) : derase k d = d₁ := by
  induction d generalizing d₁ with
  | nil => simp [dpop] at h
  | cons p rest ih =>
    obtain ⟨k₂, v₂⟩ := p
    by_cases hk : k₂ = k
    · rw [dpop, if_pos hk] at h
      simp only [Option.some.injEq, Prod.mk.injEq] at h
      rw [derase, if_pos hk, h.2]
    · rw [dpop, if_neg hk] at h
      cases hrec : dpop k rest with
      | none => rw [hrec] at h; cases h
      | some p₁ =>
        obtain ⟨v₁, rest₁⟩ := p₁
        rw [hrec] at h
        simp only [Option.some.injEq, Prod.mk.injEq] at h
        rw [← h.2, derase, if_neg hk, ih rest₁ (h.1 ▸ hrec)]

theorem dlookup_dinsert {α : Type} (k k₁ : String) (v : α) (d : List (String × α)) :
    dlookup k₁ (dinsert k v d) = if k = k₁ then some v else dlookup k₁ d := by
  induction d with
  | nil =>
    by_cases hk : k = k₁
    · simp [dinsert, dlookup, hk]
    · simp [dinsert, dlookup, hk]
  | cons p rest ih =>
    obtain ⟨k₂, v₂⟩ := p
    by_cases hk₂ : k₂ = k
    · subst hk₂
      rw [dinsert, if_pos rfl, dlookup, dlookup]
      by_cases hk : k₂ = k₁ <;> simp [hk]
    · rw [dinsert, if_neg hk₂, dlookup, dlookup]
      by_cases hk : k₂ = k₁
      · rw [if_pos hk, if_pos hk, if_neg (fun hq : k = k₁ => hk₂ (hk.trans hq.symm))]
      · rw [if_neg hk, if_neg hk, ih]

theorem keys_dinsert {α : Type} (k : String) (v : α) (d : List (String × α)) :
    keys (dinsert k v d) = if k ∈ keys d then keys d else keys d ++ [k] := by
  induction d with
  | nil => simp [dinsert, keys]
  | cons p rest ih =>
    obtain ⟨k₂, v₂⟩ := p
    by_cases hk₂ : k₂ = k
    · subst hk₂
      simp [dinsert, keys]
    · rw [dinsert, if_neg hk₂]
      simp only [keys, List.map_cons, List.mem_cons] at ih ⊢
      by_cases hmem : k ∈ List.map Prod.fst rest
      · rw [if_pos hmem] at ih
        rw [if_pos (Or.inr hmem), ih]
      · rw [if_neg hmem] at ih
        rw [if_neg (fun hq => hq.elim (fun he => hk₂ he.symm) hmem), ih]
        simp

theorem dlookup_append_some {α : Type} (k : String) (xs ys : List (String × α)) (v : α)
    (h : dlookup k xs = some v) : dlookup k (xs ++ ys) = some v := by
  induction xs with
  | nil => simp [dlookup] at h
  | cons p rest ih =>
    obtain ⟨k₂, v₂⟩ := p
    by_cases hk : k₂ = k
    · rw [dlookup, if_pos hk] at h
      rw [List.cons_append, dlookup, if_pos hk, h]
    · rw [dlookup, if_neg hk] at h
      rw [List.cons_append, dlookup, if_neg hk, ih h]

theorem dlookup_append_none {α : Type} (k : String) (xs ys : List (String × α))
    (h : dlookup k xs = Option.none) : dlookup k (xs ++ ys) = dlookup k ys := by
  induction xs with
  | nil => simp
  | cons p rest ih =>
    obtain ⟨k₂, v₂⟩ := p
    by_cases hk : k₂ = k
    · rw [dlookup, if_pos hk] at h; cases h
    · rw [dlookup, if_neg hk] at h
      rw [List.cons_append, dlookup, if_neg hk, ih h]

theorem dlookup_foldl_dinsert {α : Type} (ps : List (String × α))
    (d : List (String × α)) (k : String) :
    dlookup k (ps.foldl (fun d p => dinsert p.1 p.2 d) d) =
      (dlookup k ps.reverse).elim (dlookup k d) some := by
  induction ps generalizing d with
  | nil => simp [dlookup]
  | cons p rest ih =>
    rw [List.foldl_cons, ih, List.reverse_cons]
    cases hrev : dlookup k rest.reverse with
    | some v => rw [dlookup_append_some k rest.reverse [p] v hrev, Option.elim, Option.elim]
    | none =>
      rw [dlookup_append_none k rest.reverse [p] hrev, Option.elim]
      obtain ⟨k₁, v₁⟩ := p
      by_cases hk : k₁ = k
      · simp [dlookup, hk, dlookup_dinsert]
      · simp [dlookup, hk, dlookup_dinsert]

theorem dlookup_dictOfPairs {α : Type} (ps : List (String × α)) (k : String) :
    dlookup k (dictOfPairs ps) = dlookup k ps.reverse := by
  rw [dictOfPairs, dlookup_foldl_dinsert]
  cases h : dlookup k ps.reverse <;> simp [dlookup]

theorem keys_foldl_dinsert {α : Type} (ps : List (String × α)) (d : List (String × α)) :
    keys (ps.foldl (fun d p => dinsert p.1 p.2 d) d) =
      (keys ps).foldl (fun acc k => if k ∈ acc then acc else acc ++ [k]) (keys d) := by
  induction ps generalizing d with
  | nil => rfl
  | cons p rest ih =>
    rw [List.foldl_cons, ih, keys_dinsert]
    rfl

theorem keys_dictOfPairs {α : Type} (ps : List (String × α)) :
    keys (dictOfPairs ps) = dedupKeys (keys ps) := by
  rw [dictOfPairs, keys_foldl_dinsert, dedupKeys]
  rfl

theorem dedup_foldl_nodup (ks acc : List String) (hacc : acc.Nodup) :
    (ks.foldl (fun acc k => if k ∈ acc then acc else acc ++ [k]) acc).Nodup := by
  induction ks generalizing acc with
  | nil => exact hacc
  | cons k rest ih =>
    rw [List.foldl_cons]
    by_cases hmem : k ∈ acc
    · rw [if_pos hmem]
      exact ih acc hacc
    · rw [if_neg hmem]
      exact ih (acc ++ [k]) (by simp [List.nodup_append, hacc, hmem])

theorem dedupKeys_nodup (ks : List String) : (dedupKeys ks).Nodup :=
  dedup_foldl_nodup ks [] List.nodup_nil

theorem mapPairs_none_of_bad (xs : List String)
    (h : (xs.any fun x => (splitLine x).isNone) = true) :
    mapPairs xs = Option.none := by
  induction xs with
  | nil => simp at h
  | cons x rest ih =>
    simp only [List.any_cons, Bool.or_eq_true] at h
    cases h with
    | inl h =>
      rw [mapPairs]
      cases hx : splitLine x with
      | none => rfl
      | some p => rw [hx] at h; simp at h
    | inr h =>
      rw [mapPairs, ih h]
      cases splitLine x <;> rfl

theorem parseModText_none_of_bad (s : String) (h : hasBadLineB s = true) :
    parseModText s = Option.none := by
  rw [parseModText, mapPairs_none_of_bad (pySplit '\n' s) h]
  rfl

theorem parseModItem_none_of_bad (s : String) (hs : s ≠ "") (h : hasBadLineB s = true) :
    parseModItem (PyValue.str s) = Option.none := by
  rw [parseModItem, if_pos (by simp [PyValue.truthy, hs])]
  exact parseModText_none_of_bad s h

theorem parseModItem_str_of_ne (s : String) (hs : s ≠ "") :
    parseModItem (PyValue.str s) = parseModText s := by
  rw [parseModItem, if_pos (by simp [PyValue.truthy, hs])]

theorem parseModItem_empty : parseModItem (PyValue.str "") = some [] := rfl

/-! ### Claim C2 -/

/-- Claim C2, counterexample: a malformed line does raise the GUI error, but
the error does not name which of the two fields was malformed — the very
same message is raised whether `modification_mapping` or
`fixed_modifications` contains the bad line, and that message contains
neither field name.  Moreover, under the claim's literal reading, an empty
text block consists of the single line `""` (one token), yet
`parse_settings` succeeds on it instead of raising. -/
theorem C2_counterexample :
    (parse_settings literal_eval cfgBadMapping).1 =
        Except.error (PyErr.guiError maxquantErrorMsg) ∧
    (parse_settings literal_eval cfgBadFixed).1 =
        Except.error (PyErr.guiError maxquantErrorMsg) ∧
    containsStr maxquantErrorMsg "modification_mapping" = false ∧
    containsStr maxquantErrorMsg "fixed_modifications" = false ∧
    (parse_settings literal_eval cfgEmptyMapping).1 = Except.ok
      { general := []
        maxquant_to_rescore :=
          [("modification_mapping", []),
           ("fixed_modifications", [("C", "Carbamidomethyl")])]
        ms2pip := { model := PyValue.str "HCD2021"
                    frag_error := PyValue.float (0.02 : Rat)
                    modifications := PyValue.list [] } } :=
  ⟨rfl, rfl, rfl, rfl, rfl⟩

/-- Claim C2 (amended): for every input in which the `modification_mapping`
or `fixed_modifications` text is non-empty and contains a line that does not
split into exactly two space-separated tokens, `parse_settings` raises the
dedicated configuration error (`MS2RescoreGUIError`); the error carries one
fixed message naming the MaxQuant modification configuration as a whole, not
the individual field; no malformed line is silently dropped. -/
theorem C2_amended_malformed_line_raises (litEval : String → Option PyValue)
    (cfg g₁ g₂ : PyDict) (s₁ s₂ : String)
    (h₁ : dpop "modification_mapping" cfg = some (PyValue.str s₁, g₁))
    (h₂ : dpop "fixed_modifications" g₁ = some (PyValue.str s₂, g₂))
    (hbad : (s₁ ≠ "" ∧ hasBadLineB s₁ = true) ∨ (s₂ ≠ "" ∧ hasBadLineB s₂ = true)) :
    (parse_settings litEval cfg).1 = Except.error (PyErr.guiError maxquantErrorMsg) := by
  cases hbad with
  | inl hb =>
    rw [ps_mm_bad litEval cfg g₁ (PyValue.str s₁) h₁
      (parseModItem_none_of_bad s₁ hb.1 hb.2)]
  | inr hb =>
    cases hm₁ : parseModItem (PyValue.str s₁) with
    | none => rw [ps_mm_bad litEval cfg g₁ (PyValue.str s₁) h₁ hm₁]
    | some m₁ =>
      rw [ps_fixed_bad litEval cfg g₁ g₂ (PyValue.str s₁) (PyValue.str s₂) m₁
        h₁ hm₁ h₂ (parseModItem_none_of_bad s₂ hb.1 hb.2)]

/-- Witness for C2: the bad-line input `cfgBadMapping` satisfies the
hypotheses of the amended claim, so the GUI error is raised. -/
theorem C2_amended_witness :
    dpop "modification_mapping" cfgBadMapping =
      some (PyValue.str "Oxidation",
        [("fixed_modifications", PyValue.str "C Carbamidomethyl"),
         ("ms2pip_model", PyValue.str "HCD2021"),
         ("ms2pip_frag_error", PyValue.float (0.02 : Rat)),
         ("ms2pip_modifications", PyValue.str "[]")]) ∧
    ("Oxidation" ≠ "" ∧ hasBadLineB "Oxidation" = true) ∧
    (parse_settings literal_eval cfgBadMapping).1 =
      Except.error (PyErr.guiError maxquantErrorMsg) :=
  ⟨rfl, ⟨by decide, rfl⟩,
    C2_amended_malformed_line_raises literal_eval cfgBadMapping
      [("fixed_modifications", PyValue.str "C Carbamidomethyl"),
       ("ms2pip_model", PyValue.str "HCD2021"),
       ("ms2pip_frag_error", PyValue.float (0.02 : Rat)),
       ("ms2pip_modifications", PyValue.str "[]")]
      [("ms2pip_model", PyValue.str "HCD2021"),
       ("ms2pip_frag_error", PyValue.float (0.02 : Rat)),
       ("ms2pip_modifications", PyValue.str "[]")]
      "Oxidation" "C Carbamidomethyl" rfl rfl (Or.inl ⟨by decide, rfl⟩)⟩

/-! ### Claim C3 -/

/-- Claim C3, counterexample: the claim predicts that the line
`"C Carbamido methyl"` is split on the first space only, yielding the pair
`("C", "Carbamido methyl")` collected into the mapping.  In fact gui.py
line 235 splits on every space (`x.split(" ")`), the resulting three-token
tuple makes `dict(...)` raise, and `parse_settings` reports the MaxQuant
configuration error instead of succeeding. -/
theorem C3_counterexample :
    (parse_settings literal_eval cfgMultiSpace).1 =
      Except.error (PyErr.guiError maxquantErrorMsg) := rfl

/-- Claim C3 (amended): `parse_settings` splits the text on newlines and
splits each line on every space, not on the first space only; a line whose
full-name part itself contains spaces (e.g. `"C Carbamido methyl"`) does not
yield the pair `("C", "Carbamido methyl")` — it makes `parse_settings` raise
the dedicated MaxQuant configuration error. -/
theorem C3_amended_split_on_every_space (litEval : String → Option PyValue)
    (cfg g₁ g₂ : PyDict) (v₁ : PyValue) (m₁ : List (String × String))
    (h₁ : dpop "modification_mapping" cfg = some (v₁, g₁))
    (hm₁ : parseModItem v₁ = some m₁)
    (h₂ : dpop "fixed_modifications" g₁ = some (PyValue.str "C Carbamido methyl", g₂)) :
    (parse_settings litEval cfg).1 = Except.error (PyErr.guiError maxquantErrorMsg) := by
  rw [ps_fixed_bad litEval cfg g₁ g₂ v₁ (PyValue.str "C Carbamido methyl") m₁ h₁ hm₁ h₂ rfl]

/-- Witness for C3: the input `cfgMultiSpace` satisfies the hypotheses of the
amended claim, so the GUI error is raised. -/
theorem C3_amended_witness :
    dpop "modification_mapping" cfgMultiSpace =
      some (PyValue.str "ox Oxidation",
        [("fixed_modifications", PyValue.str "C Carbamido methyl"),
         ("ms2pip_model", PyValue.str "HCD2021"),
         ("ms2pip_frag_error", PyValue.float (0.02 : Rat)),
         ("ms2pip_modifications", PyValue.str "[]")]) ∧
    parseModItem (PyValue.str "ox Oxidation") = some [("ox", "Oxidation")] ∧
    (parse_settings literal_eval cfgMultiSpace).1 =
      Except.error (PyErr.guiError maxquantErrorMsg) :=
  ⟨rfl, rfl,
    C3_amended_split_on_every_space literal_eval cfgMultiSpace
      [("fixed_modifications", PyValue.str "C Carbamido methyl"),
       ("ms2pip_model", PyValue.str "HCD2021"),
       ("ms2pip_frag_error", PyValue.float (0.02 : Rat)),
       ("ms2pip_modifications", PyValue.str "[]")]
      [("ms2pip_model", PyValue.str "HCD2021"),
       ("ms2pip_frag_error", PyValue.float (0.02 : Rat)),
       ("ms2pip_modifications", PyValue.str "[]")]
      (PyValue.str "ox Oxidation") [("ox", "Oxidation")] rfl rfl rfl⟩

/-! ### Claim C4 -/

/-- Claim C4, counterexample: gui.py line 224 writes `"general": config`
with no copy, so the pops at lines 231, 247, 248 and 253 remove keys from
the caller's dict.  On the well-formed input `cfgAlias` the caller's mapping
after the call (the second component of the embedding) has lost the five
relocated keys and is not the input mapping. -/
theorem C4_counterexample :
    (parse_settings literal_eval cfgAlias).2 ≠ cfgAlias ∧
    (parse_settings literal_eval cfgAlias).2 =
      [("identification_file", PyValue.str "msms.txt")] := by
  constructor
  · intro h
    rw [show (parse_settings literal_eval cfgAlias).2 =
      [("identification_file", PyValue.str "msms.txt")] from rfl] at h
    have hlen := congrArg List.length h
    simp [cfgAlias] at hlen
  · rfl

/-- Claim C4 (amended): `parse_settings` builds the `general` section as the
input mapping itself (aliased, not copied), and its only effect beyond
construction of the return value is that the five relocated keys are popped
from the caller's mapping: after a successful call the caller's mapping is
exactly the returned `general` section, the input minus the five relocated
keys. -/
theorem C4_amended_general_aliases_input (litEval : String → Option PyValue)
    (cfg g' : PyDict) (pc : ParsedConfig)
    (hok : parse_settings litEval cfg = (Except.ok pc, g')) :
    g' = pc.general ∧ pc.general = removeRelocated cfg := by
  obtain ⟨v₁, v₂, vm, vf, g₁, g₂, g₃, g₄, m₁, m₂, s, mods,
    h₁, hm₁, h₂, hm₂, h₃, h₄, h₅, h₆, hpc⟩ :=
    parse_settings_ok_inv litEval cfg g' pc hok
  subst hpc
  refine ⟨rfl, ?_⟩
  rw [removeRelocated, relocatedKeys]
  simp only [List.foldl_cons, List.foldl_nil]
  rw [dpop_derase "modification_mapping" cfg g₁ v₁ h₁,
    dpop_derase "fixed_modifications" g₁ g₂ v₂ h₂,
    dpop_derase "ms2pip_model" g₂ g₃ vm h₃,
    dpop_derase "ms2pip_frag_error" g₃ g₄ vf h₄,
    dpop_derase "ms2pip_modifications" g₄ g' (PyValue.str s) h₅]

/-- Witness for C4: on `cfgAlias` the caller's mapping after the call equals
the returned `general` section, which is the input minus the five relocated
keys. -/
theorem C4_amended_witness :
    ([("identification_file", PyValue.str "msms.txt")] : PyDict) =
      ({ general := [("identification_file", PyValue.str "msms.txt")]
         maxquant_to_rescore :=
           [("modification_mapping", [("ox", "Oxidation")]),
            ("fixed_modifications", [("C", "Carbamidomethyl")])]
         ms2pip := { model := PyValue.str "HCD2021"
                     frag_error := PyValue.float (0.02 : Rat)
                     modifications := PyValue.list [] } } : ParsedConfig).general ∧
    ({ general := [("identification_file", PyValue.str "msms.txt")]
       maxquant_to_rescore :=
         [("modification_mapping", [("ox", "Oxidation")]),
          ("fixed_modifications", [("C", "Carbamidomethyl")])]
       ms2pip := { model := PyValue.str "HCD2021"
                   frag_error := PyValue.float (0.02 : Rat)
                   modifications := PyValue.list [] } } : ParsedConfig).general =
      removeRelocated cfgAlias :=
  C4_amended_general_aliases_input literal_eval cfgAlias
    [("identification_file", PyValue.str "msms.txt")]
    { general := [("identification_file", PyValue.str "msms.txt")]
      maxquant_to_rescore :=
        [("modification_mapping", [("ox", "Oxidation")]),
         ("fixed_modifications", [("C", "Carbamidomethyl")])]
      ms2pip := { model := PyValue.str "HCD2021"
                  frag_error := PyValue.float (0.02 : Rat)
                  modifications := PyValue.list [] } } rfl

/-! ### Claim C5 -/

/-- Claim C5: on every input (with distinct keys, as Python dicts guarantee)
on which `parse_settings` succeeds, the returned `general` section contains
none of the five relocated keys while every other input key keeps its value;
the two MaxQuant fields reappear under `maxquant_to_rescore`, and the three
MS²PIP fields reappear under `ms2pip` (`model` and `frag_error` verbatim,
`modifications` as the evaluated literal of the input text). -/
theorem C5_relocated_keys (litEval : String → Option PyValue)
    (cfg g' : PyDict) (pc : ParsedConfig)
    (hnd : (keys cfg).Nodup)
    (hok : parse_settings litEval cfg = (Except.ok pc, g')) :
    (fun k => dlookup k pc.general) =
      (fun k => if k ∈ relocatedKeys then Option.none else dlookup k cfg) ∧
    (dlookup "modification_mapping" pc.maxquant_to_rescore).isSome = true ∧
    (dlookup "fixed_modifications" pc.maxquant_to_rescore).isSome = true ∧
    dlookup "ms2pip_model" cfg = some pc.ms2pip.model ∧
    dlookup "ms2pip_frag_error" cfg = some pc.ms2pip.frag_error ∧
    (dlookup "ms2pip_modifications" cfg).bind (litEvalValue litEval) =
      some pc.ms2pip.modifications := by
  obtain ⟨v₁, v₂, vm, vf, g₁, g₂, g₃, g₄, m₁, m₂, s, mods,
    h₁, hm₁, h₂, hm₂, h₃, h₄, h₅, h₆, hpc⟩ :=
    parse_settings_ok_inv litEval cfg g' pc hok
  subst hpc
  have nd₁ : (keys g₁).Nodup := dpop_keys_nodup "modification_mapping" cfg g₁ v₁ hnd h₁
  have nd₂ : (keys g₂).Nodup := dpop_keys_nodup "fixed_modifications" g₁ g₂ v₂ nd₁ h₂
  have nd₃ : (keys g₃).Nodup := dpop_keys_nodup "ms2pip_model" g₂ g₃ vm nd₂ h₃
  have nd₄ : (keys g₄).Nodup := dpop_keys_nodup "ms2pip_frag_error" g₃ g₄ vf nd₃ h₄
  refine ⟨?_, ?_, ?_, ?_, ?_, ?_⟩
  · funext k
    show dlookup k g' = _
    by_cases hk₁ : k = "modification_mapping"
    · subst hk₁
      rw [if_pos (by simp [relocatedKeys]),
        dpop_dlookup_ne "ms2pip_modifications" _ g₄ g' _ h₅ (by decide),
        dpop_dlookup_ne "ms2pip_frag_error" _ g₃ g₄ _ h₄ (by decide),
        dpop_dlookup_ne "ms2pip_model" _ g₂ g₃ _ h₃ (by decide),
        dpop_dlookup_ne "fixed_modifications" _ g₁ g₂ _ h₂ (by decide)]
      exact dpop_dlookup_self _ cfg g₁ _ hnd h₁
    by_cases hk₂ : k = "fixed_modifications"
    · subst hk₂
      rw [if_pos (by simp [relocatedKeys]),
        dpop_dlookup_ne "ms2pip_modifications" _ g₄ g' _ h₅ (by decide),
        dpop_dlookup_ne "ms2pip_frag_error" _ g₃ g₄ _ h₄ (by decide),
        dpop_dlookup_ne "ms2pip_model" _ g₂ g₃ _ h₃ (by decide)]
      exact dpop_dlookup_self _ g₁ g₂ _ nd₁ h₂
    by_cases hk₃ : k = "ms2pip_model"
    · subst hk₃
      rw [if_pos (by simp [relocatedKeys]),
        dpop_dlookup_ne "ms2pip_modifications" _ g₄ g' _ h₅ (by decide),
        dpop_dlookup_ne "ms2pip_frag_error" _ g₃ g₄ _ h₄ (by decide)]
      exact dpop_dlookup_self _ g₂ g₃ _ nd₂ h₃
    by_cases hk₄ : k = "ms2pip_frag_error"
    · subst hk₄
      rw [if_pos (by simp [relocatedKeys]),
        dpop_dlookup_ne "ms2pip_modifications" _ g₄ g' _ h₅ (by decide)]
      exact dpop_dlookup_self _ g₃ g₄ _ nd₃ h₄
    by_cases hk₅ : k = "ms2pip_modifications"
    · subst hk₅
      rw [if_pos (by simp [relocatedKeys])]
      exact dpop_dlookup_self _ g₄ g' _ nd₄ h₅
    · rw [if_neg (by simp [relocatedKeys, hk₁, hk₂, hk₃, hk₄, hk₅]),
        dpop_dlookup_ne "ms2pip_modifications" k g₄ g' _ h₅ hk₅,
        dpop_dlookup_ne "ms2pip_frag_error" k g₃ g₄ _ h₄ hk₄,
        dpop_dlookup_ne "ms2pip_model" k g₂ g₃ _ h₃ hk₃,
        dpop_dlookup_ne "fixed_modifications" k g₁ g₂ _ h₂ hk₂,
        dpop_dlookup_ne "modification_mapping" k cfg g₁ _ h₁ hk₁]
  · show (dlookup "modification_mapping"
      (dinsert "fixed_modifications" m₂ (dinsert "modification_mapping" m₁ []))).isSome = true
    simp [dlookup_dinsert]
  · show (dlookup "fixed_modifications"
      (dinsert "fixed_modifications" m₂ (dinsert "modification_mapping" m₁ []))).isSome = true
    simp [dlookup_dinsert]
  · show dlookup "ms2pip_model" cfg = some vm
    rw [← dpop_dlookup_ne "modification_mapping" "ms2pip_model" cfg g₁ v₁ h₁ (by decide),
      ← dpop_dlookup_ne "fixed_modifications" "ms2pip_model" g₁ g₂ v₂ h₂ (by decide)]
    exact dpop_dlookup "ms2pip_model" g₂ g₃ vm h₃
  · show dlookup "ms2pip_frag_error" cfg = some vf
    rw [← dpop_dlookup_ne "modification_mapping" "ms2pip_frag_error" cfg g₁ v₁ h₁ (by decide),
      ← dpop_dlookup_ne "fixed_modifications" "ms2pip_frag_error" g₁ g₂ v₂ h₂ (by decide),
      ← dpop_dlookup_ne "ms2pip_model" "ms2pip_frag_error" g₂ g₃ vm h₃ (by decide)]
    exact dpop_dlookup "ms2pip_frag_error" g₃ g₄ vf h₄
  · show (dlookup "ms2pip_modifications" cfg).bind (litEvalValue litEval) = some mods
    rw [← dpop_dlookup_ne "modification_mapping" "ms2pip_modifications" cfg g₁ v₁ h₁ (by decide),
      ← dpop_dlookup_ne "fixed_modifications" "ms2pip_modifications" g₁ g₂ v₂ h₂ (by decide),
      ← dpop_dlookup_ne "ms2pip_model" "ms2pip_modifications" g₂ g₃ vm h₃ (by decide),
      ← dpop_dlookup_ne "ms2pip_frag_error" "ms2pip_modifications" g₃ g₄ vf h₄ (by decide),
      dpop_dlookup "ms2pip_modifications" g₄ g' (PyValue.str s) h₅]
    exact h₆

/-- Witness for C5: the input `cfgGeneralKeys` has distinct keys and parses
successfully; the relocation invariant holds of its output. -/
theorem C5_witness :
    (keys cfgGeneralKeys).Nodup ∧
    ((fun k => dlookup k pcGeneralKeys.general) =
      (fun k => if k ∈ relocatedKeys then Option.none else dlookup k cfgGeneralKeys) ∧
    (dlookup "modification_mapping" pcGeneralKeys.maxquant_to_rescore).isSome = true ∧
    (dlookup "fixed_modifications" pcGeneralKeys.maxquant_to_rescore).isSome = true ∧
    dlookup "ms2pip_model" cfgGeneralKeys = some pcGeneralKeys.ms2pip.model ∧
    dlookup "ms2pip_frag_error" cfgGeneralKeys = some pcGeneralKeys.ms2pip.frag_error ∧
    (dlookup "ms2pip_modifications" cfgGeneralKeys).bind (litEvalValue literal_eval) =
      some pcGeneralKeys.ms2pip.modifications) :=
  ⟨by decide,
    C5_relocated_keys literal_eval cfgGeneralKeys pcGeneralKeys.general pcGeneralKeys
      (by decide) rfl⟩

/-! ### Claim C6 -/

/-- Claim C6: an empty `modification_mapping` or `fixed_modifications` text
is falsy, so gui.py line 233 maps it to the empty dict: on success the field
appears as an empty mapping in `maxquant_to_rescore`, and when both texts
are empty the MaxQuant configuration error is never raised. -/
theorem C6_empty_text (litEval : String → Option PyValue)
    (cfg g₁ g₂ : PyDict) (s₁ s₂ : String)
    (h₁ : dpop "modification_mapping" cfg = some (PyValue.str s₁, g₁))
    (h₂ : dpop "fixed_modifications" g₁ = some (PyValue.str s₂, g₂)) :
    (s₁ = "" → okImplies (parse_settings litEval cfg)
      (fun pc => dlookup "modification_mapping" pc.maxquant_to_rescore = some [])) ∧
    (s₂ = "" → okImplies (parse_settings litEval cfg)
      (fun pc => dlookup "fixed_modifications" pc.maxquant_to_rescore = some [])) ∧
    (s₁ = "" → s₂ = "" →
      (parse_settings litEval cfg).1 ≠ Except.error (PyErr.guiError maxquantErrorMsg)) := by
  refine ⟨?_, ?_, ?_⟩
  · intro hs₁
    subst hs₁
    rcases hr : parse_settings litEval cfg with ⟨res, gf⟩
    cases res with
    | error e => exact trivial
    | ok pc =>
      obtain ⟨v₁, v₂, vm, vf, g₁x, g₂x, g₃x, g₄x, m₁, m₂, s, mods,
        h₁x, hm₁x, h₂x, hm₂x, h₃x, h₄x, h₅x, h₆x, hpc⟩ :=
        parse_settings_ok_inv litEval cfg gf pc hr
      have hv : v₁ = PyValue.str "" := by
        have := h₁.symm.trans h₁x
        simp only [Option.some.injEq, Prod.mk.injEq] at this
        exact this.1.symm
      subst hv
      have hm : m₁ = [] := by
        rw [parseModItem_empty] at hm₁x
        exact (Option.some.inj hm₁x).symm
      subst hm hpc
      show dlookup "modification_mapping"
        (dinsert "fixed_modifications" m₂ (dinsert "modification_mapping" [] [])) = some []
      simp [dlookup_dinsert]
  · intro hs₂
    subst hs₂
    rcases hr : parse_settings litEval cfg with ⟨res, gf⟩
    cases res with
    | error e => exact trivial
    | ok pc =>
      obtain ⟨v₁, v₂, vm, vf, g₁x, g₂x, g₃x, g₄x, m₁, m₂, s, mods,
        h₁x, hm₁x, h₂x, hm₂x, h₃x, h₄x, h₅x, h₆x, hpc⟩ :=
        parse_settings_ok_inv litEval cfg gf pc hr
      have hg : g₁x = g₁ := by
        have := h₁.symm.trans h₁x
        simp only [Option.some.injEq, Prod.mk.injEq] at this
        exact this.2.symm
      subst hg
      have hv : v₂ = PyValue.str "" := by
        have := h₂.symm.trans h₂x
        simp only [Option.some.injEq, Prod.mk.injEq] at this
        exact this.1.symm
      subst hv
      have hm : m₂ = [] := by
        rw [parseModItem_empty] at hm₂x
        exact (Option.some.inj hm₂x).symm
      subst hm hpc
      show dlookup "fixed_modifications"
        (dinsert "fixed_modifications" [] (dinsert "modification_mapping" m₁ [])) = some []
      simp [dlookup_dinsert]
  · intro hs₁ hs₂ hcontra
    subst hs₁
    subst hs₂
    cases h₃ : dpop "ms2pip_model" g₂ with
    | none =>
      rw [ps_model_missing litEval cfg g₁ g₂ (PyValue.str "") (PyValue.str "") [] []
        h₁ rfl h₂ rfl h₃] at hcontra
      simp at hcontra
    | some p₃ =>
      obtain ⟨vm, g₃⟩ := p₃
      cases h₄ : dpop "ms2pip_frag_error" g₃ with
      | none =>
        rw [ps_frag_missing litEval cfg g₁ g₂ g₃ (PyValue.str "") (PyValue.str "") vm [] []
          h₁ rfl h₂ rfl h₃ h₄] at hcontra
        simp at hcontra
      | some p₄ =>
        obtain ⟨vf, g₄⟩ := p₄
        cases h₅ : dpop "ms2pip_modifications" g₄ with
        | none =>
          rw [ps_mods_missing litEval cfg g₁ g₂ g₃ g₄ (PyValue.str "") (PyValue.str "") vm vf
            [] [] h₁ rfl h₂ rfl h₃ h₄ h₅] at hcontra
          simp [ms2pipErrorMsg, maxquantErrorMsg] at hcontra
        | some p₅ =>
          obtain ⟨vmod, g₅⟩ := p₅
          cases h₆ : litEvalValue litEval vmod with
          | none =>
            rw [ps_mods_badlit litEval cfg g₁ g₂ g₃ g₄ g₅ (PyValue.str "") (PyValue.str "")
              vm vf vmod [] [] h₁ rfl h₂ rfl h₃ h₄ h₅ h₆] at hcontra
            simp [ms2pipErrorMsg, maxquantErrorMsg] at hcontra
          | some mods =>
            rw [ps_ok litEval cfg g₁ g₂ g₃ g₄ g₅ (PyValue.str "") (PyValue.str "")
              vm vf vmod mods [] [] h₁ rfl h₂ rfl h₃ h₄ h₅ h₆] at hcontra
            simp at hcontra

/-- Witness for C6: on the input whose two modification texts are both
empty, the two fields parse to empty mappings and the MaxQuant error is not
raised. -/
theorem C6_witness :
    okImplies (parse_settings literal_eval cfgEmptyBoth)
      (fun pc => dlookup "modification_mapping" pc.maxquant_to_rescore = some []) ∧
    okImplies (parse_settings literal_eval cfgEmptyBoth)
      (fun pc => dlookup "fixed_modifications" pc.maxquant_to_rescore = some []) ∧
    (parse_settings literal_eval cfgEmptyBoth).1 ≠
      Except.error (PyErr.guiError maxquantErrorMsg) :=
  ⟨(C6_empty_text literal_eval cfgEmptyBoth
      [("fixed_modifications", PyValue.str ""),
       ("ms2pip_model", PyValue.str "HCD2021"),
       ("ms2pip_frag_error", PyValue.float (0.02 : Rat)),
       ("ms2pip_modifications", PyValue.str "[]")]
      [("ms2pip_model", PyValue.str "HCD2021"),
       ("ms2pip_frag_error", PyValue.float (0.02 : Rat)),
       ("ms2pip_modifications", PyValue.str "[]")]
      "" "" rfl rfl).1 rfl,
   (C6_empty_text literal_eval cfgEmptyBoth
      [("fixed_modifications", PyValue.str ""),
       ("ms2pip_model", PyValue.str "HCD2021"),
       ("ms2pip_frag_error", PyValue.float (0.02 : Rat)),
       ("ms2pip_modifications", PyValue.str "[]")]
      [("ms2pip_model", PyValue.str "HCD2021"),
       ("ms2pip_frag_error", PyValue.float (0.02 : Rat)),
       ("ms2pip_modifications", PyValue.str "[]")]
      "" "" rfl rfl).2.1 rfl,
   (C6_empty_text literal_eval cfgEmptyBoth
      [("fixed_modifications", PyValue.str ""),
       ("ms2pip_model", PyValue.str "HCD2021"),
       ("ms2pip_frag_error", PyValue.float (0.02 : Rat)),
       ("ms2pip_modifications", PyValue.str "[]")]
      [("ms2pip_model", PyValue.str "HCD2021"),
       ("ms2pip_frag_error", PyValue.float (0.02 : Rat)),
       ("ms2pip_modifications", PyValue.str "[]")]
      "" "" rfl rfl).2.2 rfl rfl⟩

/-! ### Claim C7 -/

/-- Claim C7: when every line of a non-empty `modification_mapping` text
splits into exactly two tokens (that is exactly when the pair list `ps`
exists), the resulting mapping is `dict(ps)`: its keys are the distinct
short labels in first-occurrence order, with no duplicate, and looking up a
label returns the full name of its last occurrence (the first one of the
reversed pair list). -/
theorem C7_last_duplicate_wins (litEval : String → Option PyValue)
    (cfg g' g₁ : PyDict) (pc : ParsedConfig)
    (s : String) (ps : List (String × String))
    (h₁ : dpop "modification_mapping" cfg = some (PyValue.str s, g₁))
    (hs : s ≠ "")
    (hps : mapPairs (pySplit '\n' s) = some ps)
    (hok : parse_settings litEval cfg = (Except.ok pc, g')) :
    dlookup "modification_mapping" pc.maxquant_to_rescore = some (dictOfPairs ps) ∧
    keys (dictOfPairs ps) = dedupKeys (keys ps) ∧
    (keys (dictOfPairs ps)).Nodup ∧
    (fun lab => dlookup lab (dictOfPairs ps)) =
      (fun lab => dlookup lab ps.reverse) := by
  obtain ⟨v₁, v₂, vm, vf, g₁x, g₂x, g₃x, g₄x, m₁, m₂, sx, mods,
    h₁x, hm₁x, h₂x, hm₂x, h₃x, h₄x, h₅x, h₆x, hpc⟩ :=
    parse_settings_ok_inv litEval cfg g' pc hok
  have hv : v₁ = PyValue.str s := by
    have := h₁.symm.trans h₁x
    simp only [Option.some.injEq, Prod.mk.injEq] at this
    exact this.1.symm
  subst hv
  have hm : m₁ = dictOfPairs ps := by
    rw [parseModItem_str_of_ne s hs, parseModText, hps] at hm₁x
    exact (Option.some.inj hm₁x).symm
  subst hm hpc
  refine ⟨?_, keys_dictOfPairs ps, ?_, funext fun lab => dlookup_dictOfPairs ps lab⟩
  · show dlookup "modification_mapping"
      (dinsert "fixed_modifications" m₂
        (dinsert "modification_mapping" (dictOfPairs ps) [])) = some (dictOfPairs ps)
    simp [dlookup_dinsert]
  · rw [keys_dictOfPairs ps]
    exact dedupKeys_nodup (keys ps)

/-- Witness for C7: the default-style text with the duplicate label `cm`
parses; the mapping has one entry per distinct label and the last
`cm` line wins. -/
theorem C7_witness :
    ("cm Carbamidomethyl\nox Oxidation\ncm Carbamidomethyl2" : String) ≠ "" ∧
    mapPairs (pySplit '\n' "cm Carbamidomethyl\nox Oxidation\ncm Carbamidomethyl2") =
      some [("cm", "Carbamidomethyl"), ("ox", "Oxidation"), ("cm", "Carbamidomethyl2")] ∧
    dlookup "modification_mapping" pcDupLabels.maxquant_to_rescore =
      some (dictOfPairs
        [("cm", "Carbamidomethyl"), ("ox", "Oxidation"), ("cm", "Carbamidomethyl2")]) ∧
    keys (dictOfPairs
        [("cm", "Carbamidomethyl"), ("ox", "Oxidation"), ("cm", "Carbamidomethyl2")]) =
      dedupKeys (keys
        [("cm", "Carbamidomethyl"), ("ox", "Oxidation"), ("cm", "Carbamidomethyl2")]) ∧
    (keys (dictOfPairs
        [("cm", "Carbamidomethyl"), ("ox", "Oxidation"), ("cm", "Carbamidomethyl2")])).Nodup ∧
    (fun lab => dlookup lab (dictOfPairs
        [("cm", "Carbamidomethyl"), ("ox", "Oxidation"), ("cm", "Carbamidomethyl2")])) =
      (fun lab => dlookup lab
        ([("cm", "Carbamidomethyl"), ("ox", "Oxidation"),
          ("cm", "Carbamidomethyl2")] : List (String × String)).reverse) :=
  ⟨by decide, rfl,
    (C7_last_duplicate_wins literal_eval cfgDupLabels pcDupLabels.general
      [("fixed_modifications", PyValue.str "C Carbamidomethyl"),
       ("ms2pip_model", PyValue.str "HCD2021"),
       ("ms2pip_frag_error", PyValue.float (0.02 : Rat)),
       ("ms2pip_modifications", PyValue.str "[]")]
      pcDupLabels "cm Carbamidomethyl\nox Oxidation\ncm Carbamidomethyl2"
      [("cm", "Carbamidomethyl"), ("ox", "Oxidation"), ("cm", "Carbamidomethyl2")]
      rfl (by decide) rfl rfl).1,
    (C7_last_duplicate_wins literal_eval cfgDupLabels pcDupLabels.general
      [("fixed_modifications", PyValue.str "C Carbamidomethyl"),
       ("ms2pip_model", PyValue.str "HCD2021"),
       ("ms2pip_frag_error", PyValue.float (0.02 : Rat)),
       ("ms2pip_modifications", PyValue.str "[]")]
      pcDupLabels "cm Carbamidomethyl\nox Oxidation\ncm Carbamidomethyl2"
      [("cm", "Carbamidomethyl"), ("ox", "Oxidation"), ("cm", "Carbamidomethyl2")]
      rfl (by decide) rfl rfl).2.1,
    (C7_last_duplicate_wins literal_eval cfgDupLabels pcDupLabels.general
      [("fixed_modifications", PyValue.str "C Carbamidomethyl"),
       ("ms2pip_model", PyValue.str "HCD2021"),
       ("ms2pip_frag_error", PyValue.float (0.02 : Rat)),
       ("ms2pip_modifications", PyValue.str "[]")]
      pcDupLabels "cm Carbamidomethyl\nox Oxidation\ncm Carbamidomethyl2"
      [("cm", "Carbamidomethyl"), ("ox", "Oxidation"), ("cm", "Carbamidomethyl2")]
      rfl (by decide) rfl rfl).2.2.1,
    (C7_last_duplicate_wins literal_eval cfgDupLabels pcDupLabels.general
      [("fixed_modifications", PyValue.str "C Carbamidomethyl"),
       ("ms2pip_model", PyValue.str "HCD2021"),
       ("ms2pip_frag_error", PyValue.float (0.02 : Rat)),
       ("ms2pip_modifications", PyValue.str "[]")]
      pcDupLabels "cm Carbamidomethyl\nox Oxidation\ncm Carbamidomethyl2"
      [("cm", "Carbamidomethyl"), ("ox", "Oxidation"), ("cm", "Carbamidomethyl2")]
      rfl (by decide) rfl rfl).2.2.2⟩

/-! ### Claim C8 -/

/-- Claim C8: with the earlier fields present and well-formed and the
`ms2pip_modifications` value being a text, `parse_settings` raises the
dedicated configuration error naming the MS²PIP modifications configuration
exactly when the literal evaluator rejects the text; no raw parse exception
escapes (the result of the guarded step is always either the parsed value or
that one GUI error), and on success the evaluated literal is stored verbatim
under `ms2pip.modifications`. -/
theorem C8_literal_eval_guarded (litEval : String → Option PyValue)
    (cfg g₁ g₂ g₃ g₄ g₅ : PyDict)
    (v₁ v₂ vm vf : PyValue) (m₁ m₂ : List (String × String)) (s : String)
    (h₁ : dpop "modification_mapping" cfg = some (v₁, g₁))
    (hm₁ : parseModItem v₁ = some m₁)
    (h₂ : dpop "fixed_modifications" g₁ = some (v₂, g₂))
    (hm₂ : parseModItem v₂ = some m₂)
    (h₃ : dpop "ms2pip_model" g₂ = some (vm, g₃))
    (h₄ : dpop "ms2pip_frag_error" g₃ = some (vf, g₄))
    (h₅ : dpop "ms2pip_modifications" g₄ = some (PyValue.str s, g₅)) :
    ((parse_settings litEval cfg).1 =
        Except.error (PyErr.guiError ms2pipErrorMsg) ↔ litEval s = Option.none) ∧
    (parse_settings litEval cfg).1.map (fun pc => pc.ms2pip.modifications) =
      modsResult (litEval s) := by
  cases hle : litEval s with
  | none =>
    rw [ps_mods_badlit litEval cfg g₁ g₂ g₃ g₄ g₅ v₁ v₂ vm vf (PyValue.str s) m₁ m₂
      h₁ hm₁ h₂ hm₂ h₃ h₄ h₅ hle]
    exact ⟨by simp, rfl⟩
  | some v =>
    rw [ps_ok litEval cfg g₁ g₂ g₃ g₄ g₅ v₁ v₂ vm vf (PyValue.str s) v m₁ m₂
      h₁ hm₁ h₂ hm₂ h₃ h₄ h₅ hle]
    exact ⟨by simp, rfl⟩

/-- Witness for C8: a valid literal sequence of records round-trips into
`ms2pip.modifications`, and the unbalanced-bracket text raises exactly the
MS²PIP configuration error. -/
theorem C8_witness :
    ((parse_settings literal_eval cfgRecords).1 =
        Except.error (PyErr.guiError ms2pipErrorMsg) ↔
      literal_eval "[\x7b\"name\": \"Oxidation\", \"amino_acid\": \"M\"\x7d, \x7b\"name\": \"Carbamidomethyl\", \"amino_acid\": \"C\"\x7d]" =
        Option.none) ∧
    (parse_settings literal_eval cfgRecords).1.map (fun pc => pc.ms2pip.modifications) =
      modsResult (literal_eval "[\x7b\"name\": \"Oxidation\", \"amino_acid\": \"M\"\x7d, \x7b\"name\": \"Carbamidomethyl\", \"amino_acid\": \"C\"\x7d]") ∧
    ((parse_settings literal_eval cfgBadLiteral).1 =
        Except.error (PyErr.guiError ms2pipErrorMsg) ↔
      literal_eval "[\x7b" = Option.none) ∧
    (parse_settings literal_eval cfgBadLiteral).1.map (fun pc => pc.ms2pip.modifications) =
      modsResult (literal_eval "[\x7b") :=
  ⟨(C8_literal_eval_guarded literal_eval cfgRecords
      [("fixed_modifications", PyValue.str "C Carbamidomethyl"),
       ("ms2pip_model", PyValue.str "HCD2021"),
       ("ms2pip_frag_error", PyValue.float (0.02 : Rat)),
       ("ms2pip_modifications",
        PyValue.str "[\x7b\"name\": \"Oxidation\", \"amino_acid\": \"M\"\x7d, \x7b\"name\": \"Carbamidomethyl\", \"amino_acid\": \"C\"\x7d]")]
      [("ms2pip_model", PyValue.str "HCD2021"),
       ("ms2pip_frag_error", PyValue.float (0.02 : Rat)),
       ("ms2pip_modifications",
        PyValue.str "[\x7b\"name\": \"Oxidation\", \"amino_acid\": \"M\"\x7d, \x7b\"name\": \"Carbamidomethyl\", \"amino_acid\": \"C\"\x7d]")]
      [("ms2pip_frag_error", PyValue.float (0.02 : Rat)),
       ("ms2pip_modifications",
        PyValue.str "[\x7b\"name\": \"Oxidation\", \"amino_acid\": \"M\"\x7d, \x7b\"name\": \"Carbamidomethyl\", \"amino_acid\": \"C\"\x7d]")]
      [("ms2pip_modifications",
        PyValue.str "[\x7b\"name\": \"Oxidation\", \"amino_acid\": \"M\"\x7d, \x7b\"name\": \"Carbamidomethyl\", \"amino_acid\": \"C\"\x7d]")]
      []
      (PyValue.str "ox Oxidation") (PyValue.str "C Carbamidomethyl")
      (PyValue.str "HCD2021") (PyValue.float (0.02 : Rat))
      [("ox", "Oxidation")] [("C", "Carbamidomethyl")]
      "[\x7b\"name\": \"Oxidation\", \"amino_acid\": \"M\"\x7d, \x7b\"name\": \"Carbamidomethyl\", \"amino_acid\": \"C\"\x7d]"
      rfl rfl rfl rfl rfl rfl rfl).1,
   (C8_literal_eval_guarded literal_eval cfgRecords
      [("fixed_modifications", PyValue.str "C Carbamidomethyl"),
       ("ms2pip_model", PyValue.str "HCD2021"),
       ("ms2pip_frag_error", PyValue.float (0.02 : Rat)),
       ("ms2pip_modifications",
        PyValue.str "[\x7b\"name\": \"Oxidation\", \"amino_acid\": \"M\"\x7d, \x7b\"name\": \"Carbamidomethyl\", \"amino_acid\": \"C\"\x7d]")]
      [("ms2pip_model", PyValue.str "HCD2021"),
       ("ms2pip_frag_error", PyValue.float (0.02 : Rat)),
       ("ms2pip_modifications",
        PyValue.str "[\x7b\"name\": \"Oxidation\", \"amino_acid\": \"M\"\x7d, \x7b\"name\": \"Carbamidomethyl\", \"amino_acid\": \"C\"\x7d]")]
      [("ms2pip_frag_error", PyValue.float (0.02 : Rat)),
       ("ms2pip_modifications",
        PyValue.str "[\x7b\"name\": \"Oxidation\", \"amino_acid\": \"M\"\x7d, \x7b\"name\": \"Carbamidomethyl\", \"amino_acid\": \"C\"\x7d]")]
      [("ms2pip_modifications",
        PyValue.str "[\x7b\"name\": \"Oxidation\", \"amino_acid\": \"M\"\x7d, \x7b\"name\": \"Carbamidomethyl\", \"amino_acid\": \"C\"\x7d]")]
      []
      (PyValue.str "ox Oxidation") (PyValue.str "C Carbamidomethyl")
      (PyValue.str "HCD2021") (PyValue.float (0.02 : Rat))
      [("ox", "Oxidation")] [("C", "Carbamidomethyl")]
      "[\x7b\"name\": \"Oxidation\", \"amino_acid\": \"M\"\x7d, \x7b\"name\": \"Carbamidomethyl\", \"amino_acid\": \"C\"\x7d]"
      rfl rfl rfl rfl rfl rfl rfl).2,
   (C8_literal_eval_guarded literal_eval cfgBadLiteral
      [("fixed_modifications", PyValue.str "C Carbamidomethyl"),
       ("ms2pip_model", PyValue.str "HCD2021"),
       ("ms2pip_frag_error", PyValue.float (0.02 : Rat)),
       ("ms2pip_modifications", PyValue.str "[\x7b")]
      [("ms2pip_model", PyValue.str "HCD2021"),
       ("ms2pip_frag_error", PyValue.float (0.02 : Rat)),
       ("ms2pip_modifications", PyValue.str "[\x7b")]
      [("ms2pip_frag_error", PyValue.float (0.02 : Rat)),
       ("ms2pip_modifications", PyValue.str "[\x7b")]
      [("ms2pip_modifications", PyValue.str "[\x7b")]
      []
      (PyValue.str "ox Oxidation") (PyValue.str "C Carbamidomethyl")
      (PyValue.str "HCD2021") (PyValue.float (0.02 : Rat))
      [("ox", "Oxidation")] [("C", "Carbamidomethyl")]
      "[\x7b"
      rfl rfl rfl rfl rfl rfl rfl).1,
   (C8_literal_eval_guarded literal_eval cfgBadLiteral
      [("fixed_modifications", PyValue.str "C Carbamidomethyl"),
       ("ms2pip_model", PyValue.str "HCD2021"),
       ("ms2pip_frag_error", PyValue.float (0.02 : Rat)),
       ("ms2pip_modifications", PyValue.str "[\x7b")]
      [("ms2pip_model", PyValue.str "HCD2021"),
       ("ms2pip_frag_error", PyValue.float (0.02 : Rat)),
       ("ms2pip_modifications", PyValue.str "[\x7b")]
      [("ms2pip_frag_error", PyValue.float (0.02 : Rat)),
       ("ms2pip_modifications", PyValue.str "[\x7b")]
      [("ms2pip_modifications", PyValue.str "[\x7b")]
      []
      (PyValue.str "ox Oxidation") (PyValue.str "C Carbamidomethyl")
      (PyValue.str "HCD2021") (PyValue.float (0.02 : Rat))
      [("ox", "Oxidation")] [("C", "Carbamidomethyl")]
      "[\x7b"
      rfl rfl rfl rfl rfl rfl rfl).2⟩

/-! ### Claim C9 -/

/-- Claim C9: the pops of `modification_mapping`, `fixed_modifications`
(gui.py line 231), `ms2pip_model` and `ms2pip_frag_error` (lines 247-248)
sit outside any `try`, so a missing one of those keys escapes as a raw
`KeyError`; only the pop of `ms2pip_modifications` (line 253) sits inside
the guarded block, so that key alone, when missing, surfaces as the
dedicated `MS2RescoreGUIError`. -/
theorem C9_missing_key_behaviour (litEval : String → Option PyValue)
    (cfg g₁ g₂ g₃ g₄ : PyDict) (v₁ v₂ vm vf : PyValue)
    (m₁ m₂ : List (String × String)) :
    (dpop "modification_mapping" cfg = Option.none →
      (parse_settings litEval cfg).1 =
        Except.error (PyErr.keyError "modification_mapping")) ∧
    (dpop "modification_mapping" cfg = some (v₁, g₁) →
      parseModItem v₁ = some m₁ →
      dpop "fixed_modifications" g₁ = Option.none →
      (parse_settings litEval cfg).1 =
        Except.error (PyErr.keyError "fixed_modifications")) ∧
    (dpop "modification_mapping" cfg = some (v₁, g₁) →
      parseModItem v₁ = some m₁ →
      dpop "fixed_modifications" g₁ = some (v₂, g₂) →
      parseModItem v₂ = some m₂ →
      dpop "ms2pip_model" g₂ = Option.none →
      (parse_settings litEval cfg).1 =
        Except.error (PyErr.keyError "ms2pip_model")) ∧
    (dpop "modification_mapping" cfg = some (v₁, g₁) →
      parseModItem v₁ = some m₁ →
      dpop "fixed_modifications" g₁ = some (v₂, g₂) →
      parseModItem v₂ = some m₂ →
      dpop "ms2pip_model" g₂ = some (vm, g₃) →
      dpop "ms2pip_frag_error" g₃ = Option.none →
      (parse_settings litEval cfg).1 =
        Except.error (PyErr.keyError "ms2pip_frag_error")) ∧
    (dpop "modification_mapping" cfg = some (v₁, g₁) →
      parseModItem v₁ = some m₁ →
      dpop "fixed_modifications" g₁ = some (v₂, g₂) →
      parseModItem v₂ = some m₂ →
      dpop "ms2pip_model" g₂ = some (vm, g₃) →
      dpop "ms2pip_frag_error" g₃ = some (vf, g₄) →
      dpop "ms2pip_modifications" g₄ = Option.none →
      (parse_settings litEval cfg).1 =
        Except.error (PyErr.guiError ms2pipErrorMsg)) := by
  refine ⟨?_, ?_, ?_, ?_, ?_⟩
  · intro h₁
    rw [ps_mm_missing litEval cfg h₁]
  · intro h₁ hm₁ h₂
    rw [ps_fixed_missing litEval cfg g₁ v₁ m₁ h₁ hm₁ h₂]
  · intro h₁ hm₁ h₂ hm₂ h₃
    rw [ps_model_missing litEval cfg g₁ g₂ v₁ v₂ m₁ m₂ h₁ hm₁ h₂ hm₂ h₃]
  · intro h₁ hm₁ h₂ hm₂ h₃ h₄
    rw [ps_frag_missing litEval cfg g₁ g₂ g₃ v₁ v₂ vm m₁ m₂ h₁ hm₁ h₂ hm₂ h₃ h₄]
  · intro h₁ hm₁ h₂ hm₂ h₃ h₄ h₅
    rw [ps_mods_missing litEval cfg g₁ g₂ g₃ g₄ v₁ v₂ vm vf m₁ m₂ h₁ hm₁ h₂ hm₂ h₃ h₄ h₅]

/-- Witness for C9: dropping each key in turn from the example input gives
the raw `KeyError` for the four unguarded pops and the GUI error for the
guarded `ms2pip_modifications` pop. -/
theorem C9_witness :
    (parse_settings literal_eval cfgNoMapping).1 =
      Except.error (PyErr.keyError "modification_mapping") ∧
    (parse_settings literal_eval cfgNoFixed).1 =
      Except.error (PyErr.keyError "fixed_modifications") ∧
    (parse_settings literal_eval cfgNoModel).1 =
      Except.error (PyErr.keyError "ms2pip_model") ∧
    (parse_settings literal_eval cfgNoFragError).1 =
      Except.error (PyErr.keyError "ms2pip_frag_error") ∧
    (parse_settings literal_eval cfgNoMs2pipMods).1 =
      Except.error (PyErr.guiError ms2pipErrorMsg) :=
  ⟨(C9_missing_key_behaviour literal_eval cfgNoMapping [] [] [] []
      PyValue.none PyValue.none PyValue.none PyValue.none [] []).1 rfl,
   (C9_missing_key_behaviour literal_eval cfgNoFixed
      [("ms2pip_model", PyValue.str "HCD2021"),
       ("ms2pip_frag_error", PyValue.float (0.02 : Rat)),
       ("ms2pip_modifications", PyValue.str "[]")] [] [] []
      (PyValue.str "ox Oxidation") PyValue.none PyValue.none PyValue.none
      [("ox", "Oxidation")] []).2.1 rfl rfl rfl,
   (C9_missing_key_behaviour literal_eval cfgNoModel
      [("fixed_modifications", PyValue.str "C Carbamidomethyl"),
       ("ms2pip_frag_error", PyValue.float (0.02 : Rat)),
       ("ms2pip_modifications", PyValue.str "[]")]
      [("ms2pip_frag_error", PyValue.float (0.02 : Rat)),
       ("ms2pip_modifications", PyValue.str "[]")] [] []
      (PyValue.str "ox Oxidation") (PyValue.str "C Carbamidomethyl")
      PyValue.none PyValue.none
      [("ox", "Oxidation")] [("C", "Carbamidomethyl")]).2.2.1 rfl rfl rfl rfl rfl,
   (C9_missing_key_behaviour literal_eval cfgNoFragError
      [("fixed_modifications", PyValue.str "C Carbamidomethyl"),
       ("ms2pip_model", PyValue.str "HCD2021"),
       ("ms2pip_modifications", PyValue.str "[]")]
      [("ms2pip_model", PyValue.str "HCD2021"),
       ("ms2pip_modifications", PyValue.str "[]")]
      [("ms2pip_modifications", PyValue.str "[]")] []
      (PyValue.str "ox Oxidation") (PyValue.str "C Carbamidomethyl")
      (PyValue.str "HCD2021") PyValue.none
      [("ox", "Oxidation")] [("C", "Carbamidomethyl")]).2.2.2.1
      rfl rfl rfl rfl rfl rfl,
   (C9_missing_key_behaviour literal_eval cfgNoMs2pipMods
      [("fixed_modifications", PyValue.str "C Carbamidomethyl"),
       ("ms2pip_model", PyValue.str "HCD2021"),
       ("ms2pip_frag_error", PyValue.float (0.02 : Rat))]
      [("ms2pip_model", PyValue.str "HCD2021"),
       ("ms2pip_frag_error", PyValue.float (0.02 : Rat))]
      [("ms2pip_frag_error", PyValue.float (0.02 : Rat))] []
      (PyValue.str "ox Oxidation") (PyValue.str "C Carbamidomethyl")
      (PyValue.str "HCD2021") (PyValue.float (0.02 : Rat))
      [("ox", "Oxidation")] [("C", "Carbamidomethyl")]).2.2.2.2
      rfl rfl rfl rfl rfl rfl rfl⟩

/-! ### Claim C10 -/

/-- Claim C10: whenever the `ms2pip_modifications` text evaluates to any
literal value at all — of any shape, a sequence of records or not —
`parse_settings` succeeds and stores that value verbatim under
`ms2pip.modifications`; no validation of the value is performed. -/
theorem C10_no_shape_validation (litEval : String → Option PyValue)
    (cfg g₁ g₂ g₃ g₄ g₅ : PyDict)
    (v₁ v₂ vm vf v : PyValue) (m₁ m₂ : List (String × String)) (s : String)
    (h₁ : dpop "modification_mapping" cfg = some (v₁, g₁))
    (hm₁ : parseModItem v₁ = some m₁)
    (h₂ : dpop "fixed_modifications" g₁ = some (v₂, g₂))
    (hm₂ : parseModItem v₂ = some m₂)
    (h₃ : dpop "ms2pip_model" g₂ = some (vm, g₃))
    (h₄ : dpop "ms2pip_frag_error" g₃ = some (vf, g₄))
    (h₅ : dpop "ms2pip_modifications" g₄ = some (PyValue.str s, g₅))
    (hv : litEval s = some v) :
    parse_settings litEval cfg =
      (Except.ok
        { general := g₅
          maxquant_to_rescore :=
            dinsert "fixed_modifications" m₂ (dinsert "modification_mapping" m₁ [])
          ms2pip := { model := vm, frag_error := vf, modifications := v } },
       g₅) :=
  ps_ok litEval cfg g₁ g₂ g₃ g₄ g₅ v₁ v₂ vm vf (PyValue.str s) v m₁ m₂
    h₁ hm₁ h₂ hm₂ h₃ h₄ h₅ hv

/-- Witness for C10: the bare number `3` is not a sequence of records, yet
it is accepted and stored verbatim. -/
theorem C10_witness :
    literal_eval "3" = some (PyValue.int 3) ∧
    parse_settings literal_eval cfgBareNumber =
      (Except.ok pcBareNumber, pcBareNumber.general) :=
  ⟨rfl,
    C10_no_shape_validation literal_eval cfgBareNumber
      [("fixed_modifications", PyValue.str "C Carbamidomethyl"),
       ("ms2pip_model", PyValue.str "HCD2021"),
       ("ms2pip_frag_error", PyValue.float (0.02 : Rat)),
       ("ms2pip_modifications", PyValue.str "3")]
      [("ms2pip_model", PyValue.str "HCD2021"),
       ("ms2pip_frag_error", PyValue.float (0.02 : Rat)),
       ("ms2pip_modifications", PyValue.str "3")]
      [("ms2pip_frag_error", PyValue.float (0.02 : Rat)),
       ("ms2pip_modifications", PyValue.str "3")]
      [("ms2pip_modifications", PyValue.str "3")]
      []
      (PyValue.str "ox Oxidation") (PyValue.str "C Carbamidomethyl")
      (PyValue.str "HCD2021") (PyValue.float (0.02 : Rat)) (PyValue.int 3)
      [("ox", "Oxidation")] [("C", "Carbamidomethyl")]
      "3" rfl rfl rfl rfl rfl rfl rfl rfl⟩
